import Mathlib

/-!
# School bus tracker service — verification of the core algorithms

Shallow embedding of the repository's core code:

* `src/src/services/eta.service.ts` — haversine distance, traffic
  adjustment, single-destination ETA (OSRM primary + haversine fallback),
  multi-stop ETA;
* `src/unnamed/part_010` (`osrm.service.ts`) — route cache keyed by
  coordinates printed with `toFixed(4)`, 5-minute TTL;
* `src/unnamed/part_001` (`stop-progress.service.ts`) — geofence visit
  recording (`processPositionUpdate` / `markStopVisited`) and the
  passed / current / upcoming classification (`getStopProgress`).

JavaScript numbers are modelled as real numbers where trigonometry is
involved (coordinates, haversine distances, provider durations) and as
rationals where the code only performs exact decimal arithmetic (traffic
multipliers, the cache key's `toFixed(4)` rounding), so that those parts
stay computable.  `Math.round` is round-half-up, `⌊x + 1/2⌋`.
-/

open Real

/-- JavaScript `Math.round` on an exact rational value: round half up. -/
def jsRoundQ (q : ℚ) : ℤ := ⌊q + 1/2⌋

/-- JavaScript `Math.round` on a real value: round half up. -/
noncomputable def jsRoundR (x : ℝ) : ℤ := ⌊x + 1/2⌋

/-- `Math.atan2 y x` (JS semantics on real inputs; the `±0` distinctions of
IEEE floats do not arise over `ℝ`). -/
noncomputable def atan2 (y x : ℝ) : ℝ :=
  if 0 < x then Real.arctan (y / x)
  else if x < 0 then
    (if 0 ≤ y then Real.arctan (y / x) + π else Real.arctan (y / x) - π)
  else
    (if 0 < y then π / 2 else if y < 0 then -(π / 2) else 0)

/-- Earth radius constant from `eta.service.ts`. -/
def EARTH_RADIUS : ℝ := 6371000

/-- Degrees to radians, the `toRad` closure of `calculateDistance`. -/
noncomputable def toRad (deg : ℝ) : ℝ := deg * π / 180

/-- `calculateDistance` (eta.service.ts): haversine great-circle distance in
meters between `(lat1, lon1)` and `(lat2, lon2)`. -/
noncomputable def calculateDistance (lat1 lon1 lat2 lon2 : ℝ) : ℝ :=
  let dLat := toRad (lat2 - lat1)
  let dLon := toRad (lon2 - lon1)
  let a := Real.sin (dLat / 2) * Real.sin (dLat / 2) +
      Real.cos (toRad lat1) * Real.cos (toRad lat2) *
      (Real.sin (dLon / 2) * Real.sin (dLon / 2))
  let c := 2 * atan2 (Real.sqrt a) (Real.sqrt (1 - a))
  EARTH_RADIUS * c

/-- The triple returned by `getTrafficMultiplier`. -/
structure TrafficBand where
  multiplier : ℚ
  minFactor : ℚ
  maxFactor : ℚ
  deriving Repr, DecidableEq

/-- `getTrafficMultiplier` (eta.service.ts).  The source reads the wall
clock (`new Date().getHours()`); the hour is injected as a parameter. -/
def getTrafficMultiplier (hour : ℕ) : TrafficBand :=
  if 7 ≤ hour ∧ hour ≤ 10 then ⟨13/10, 9/10, 16/10⟩
  else if 16 ≤ hour ∧ hour ≤ 20 then ⟨14/10, 95/100, 18/10⟩
  else if 22 ≤ hour ∨ hour ≤ 6 then ⟨9/10, 8/10, 1⟩
  else ⟨1, 85/100, 12/10⟩

/-- Result of `applyTrafficAdjustment`. -/
structure TrafficAdjusted where
  adjusted : ℤ
  rangeMin : ℤ
  rangeMax : ℤ
  deriving Repr, DecidableEq

/-- `applyTrafficAdjustment` (eta.service.ts): every call site passes an
already-rounded (integer) number of base minutes. -/
def applyTrafficAdjustment (hour : ℕ) (baseMinutes : ℤ) : TrafficAdjusted :=
  let traffic := getTrafficMultiplier hour
  { adjusted := jsRoundQ (baseMinutes * traffic.multiplier)
    rangeMin := max 1 (jsRoundQ (baseMinutes * traffic.minFactor))
    rangeMax := jsRoundQ (baseMinutes * traffic.maxFactor) }

/-! ## GeoMath lemmas -/

lemma atan2_zero_one : atan2 0 1 = 0 := by
  simp [atan2, Real.arctan_zero]

lemma arctan_nonneg_of_nonneg {t : ℝ} (ht : 0 ≤ t) : 0 ≤ Real.arctan t := by
  have := Real.arctan_strictMono.monotone ht
  rwa [Real.arctan_zero] at this

lemma atan2_nonneg {y x : ℝ} (hy : 0 ≤ y) : 0 ≤ atan2 y x := by
  unfold atan2
  split_ifs with h1 h2 h3 h4
  · exact arctan_nonneg_of_nonneg (div_nonneg hy h1.le)
  · -- x < 0, 0 ≤ y : arctan (y/x) + π ≥ -π/2 + π ≥ 0
    have harctan : -(π/2) < Real.arctan (y / x) := Real.neg_pi_div_two_lt_arctan _
    have hpi : 0 < π := Real.pi_pos
    linarith
  · linarith [Real.pi_pos]
  · exact absurd h4 (not_lt.mpr hy)
  · exact le_refl 0

lemma calculateDistance_comm (lat1 lon1 lat2 lon2 : ℝ) :
    calculateDistance lat1 lon1 lat2 lon2 = calculateDistance lat2 lon2 lat1 lon1 := by
  unfold calculateDistance
  dsimp only
  have hsin : ∀ u v : ℝ, Real.sin (toRad (u - v) / 2) * Real.sin (toRad (u - v) / 2)
      = Real.sin (toRad (v - u) / 2) * Real.sin (toRad (v - u) / 2) := by
    intro u v
    have : toRad (u - v) = -(toRad (v - u)) := by unfold toRad; ring
    rw [this]
    rw [show -(toRad (v - u)) / 2 = -(toRad (v - u) / 2) by ring, Real.sin_neg]
    ring
  rw [hsin lat2 lat1, hsin lon2 lon1]
  ring_nf

lemma calculateDistance_self (lat lon : ℝ) : calculateDistance lat lon lat lon = 0 := by
  unfold calculateDistance
  simp only [sub_self]
  have htr : toRad 0 = 0 := by unfold toRad; ring
  rw [htr]
  norm_num [Real.sin_zero, Real.sqrt_zero, Real.sqrt_one, atan2_zero_one]

lemma radius_times_atan2_sqrt_nonneg (a : ℝ) :
    0 ≤ EARTH_RADIUS * (2 * atan2 (Real.sqrt a) (Real.sqrt (1 - a))) := by
  have h1 : (0:ℝ) ≤ EARTH_RADIUS := by unfold EARTH_RADIUS; norm_num
  have h2 : 0 ≤ atan2 (Real.sqrt a) (Real.sqrt (1 - a)) :=
    atan2_nonneg (Real.sqrt_nonneg a)
  have := mul_nonneg h1 (by linarith : (0:ℝ) ≤ 2 * atan2 (Real.sqrt a) (Real.sqrt (1 - a)))
  exact this

lemma calculateDistance_nonneg (lat1 lon1 lat2 lon2 : ℝ) :
    0 ≤ calculateDistance lat1 lon1 lat2 lon2 := by
  unfold calculateDistance
  dsimp only
  exact radius_times_atan2_sqrt_nonneg _

/-! ## Single-destination ETA (eta.service.ts) -/

/-- `'osrm' | 'fallback'` source tag. -/
inductive EtaSource where
  | osrm
  | fallback
  deriving Repr, DecidableEq

/-- `confidenceRange` of an `ETAResult`. -/
structure ConfidenceRange where
  minMinutes : ℤ
  maxMinutes : ℤ
  deriving Repr, DecidableEq

/-- `ETAResult` (eta.service.ts).  `estimatedArrival` is kept as the epoch
millisecond value `now + adjusted*60*1000` that the source converts to an
ISO string. -/
structure ETAResult where
  minutes : ℤ
  distance : ℤ
  estimatedArrival : ℤ
  confidenceRange : ConfidenceRange
  routeGeometry : Option String
  source : EtaSource
  deriving Repr, DecidableEq

/-- `RouteResult` returned by `OSRMService.getRoute`; duration in seconds,
distance in meters, polyline geometry. -/
structure RouteResult where
  duration : ℚ
  distance : ℚ
  geometry : String
  deriving Repr, DecidableEq

/-- The confidence range built inside `calculateEtaFallback` from the
traffic-adjusted range of the (integer) base minutes: both bounds are
scaled by the 1.3 `uncertaintyMultiplier` and re-rounded. -/
def fallbackConfidence (hour : ℕ) (timeMinutes : ℤ) : ConfidenceRange :=
  let ta := applyTrafficAdjustment hour timeMinutes
  { minMinutes := jsRoundQ (ta.rangeMin * (13/10))
    maxMinutes := jsRoundQ (ta.rangeMax * (13/10)) }

/-- `calculateEtaFallback` (eta.service.ts): haversine distance, assumed
25 km/h city speed, traffic adjustment, 1.4× reported distance inflation,
1.3× widened confidence bounds.  `hour` and `now` stand for the wall
clock reads in the source. -/
noncomputable def calculateEtaFallback (hour : ℕ) (now : ℤ)
    (currentLat currentLon destLat destLon : ℝ) : ETAResult :=
  let distanceMeters := calculateDistance currentLat currentLon destLat destLon
  let timeMinutes := jsRoundR (distanceMeters / 1000 / 25 * 60)
  let ta := applyTrafficAdjustment hour timeMinutes
  { minutes := ta.adjusted
    distance := jsRoundR (distanceMeters * (14/10))
    estimatedArrival := now + ta.adjusted * 60 * 1000
    confidenceRange := fallbackConfidence hour timeMinutes
    routeGeometry := none
    source := .fallback }

/-- `calculateEtaOSRM` (eta.service.ts).  The provider response
(`osrmService.getRoute`) is injected as `route`; `none` models an
unavailable provider or a no-route answer. -/
noncomputable def calculateEtaOSRM (route : Option RouteResult) (hour : ℕ) (now : ℤ)
    (currentLat currentLon destLat destLon : ℝ)
    (includeGeometry : Bool) : ETAResult :=
  match route with
  | none => calculateEtaFallback hour now currentLat currentLon destLat destLon
  | some r =>
    let baseMinutes := jsRoundQ (r.duration / 60)
    let ta := applyTrafficAdjustment hour baseMinutes
    { minutes := ta.adjusted
      distance := jsRoundQ r.distance
      estimatedArrival := now + ta.adjusted * 60 * 1000
      confidenceRange := { minMinutes := ta.rangeMin, maxMinutes := ta.rangeMax }
      routeGeometry := if includeGeometry then some r.geometry else none
      source := .osrm }

/-! ## Multi-stop ETA (eta.service.ts) -/

/-- `Stop` as consumed by `calculateMultiStopEta`. -/
structure EtaStop where
  id : ℤ
  name : String
  lat : ℝ
  lng : ℝ

/-- `'completed' | 'next' | 'upcoming'` per-stop status. -/
inductive StopEtaStatus where
  | completed
  | next
  | upcoming
  deriving Repr, DecidableEq

/-- `StopETA` (eta.service.ts). -/
structure StopETA where
  stopId : ℤ
  stopName : String
  etaMinutes : ℤ
  distance : ℤ
  status : StopEtaStatus
  deriving Repr, DecidableEq

/-- `MultiStopETA` (eta.service.ts). -/
structure MultiStopETA where
  totalMinutes : ℤ
  totalDistance : ℤ
  stopsAway : ℤ
  targetStopEta : Option StopETA
  stops : List StopETA
  routeGeometry : Option String
  source : EtaSource
  deriving Repr, DecidableEq

/-- One leg of `MultiStopRouteResult` (osrm.service.ts). -/
structure RouteLeg where
  duration : ℚ
  distance : ℚ
  deriving Repr, DecidableEq

/-- `MultiStopRouteResult` returned by `OSRMService.getMultiStopRoute`. -/
structure MultiStopRouteResult where
  totalDuration : ℚ
  totalDistance : ℚ
  geometry : String
  legs : List RouteLeg
  deriving Repr, DecidableEq

/-- The `stops.map` loop of the routed branch of `calculateMultiStopEta`:
the JavaScript closure mutates `cumulativeMinutes` / `cumulativeDistance` /
`stopsAway` / `targetStopEta`, modelled as explicit recursion state.
Returns the built `StopETA` list and the final `stopsAway` /
`targetStopEta`. -/
def osrmStopEtas (hour : ℕ) (tgt : Option ℤ) :
    List (EtaStop × RouteLeg) → ℕ → ℤ → ℚ → ℤ → Option StopETA →
    List StopETA × ℤ × Option StopETA
  | [], _, _, _, sa, te => ([], sa, te)
  | (stop, leg) :: rest, idx, cumMin, cumDist, sa, te =>
    let legMinutes := jsRoundQ (leg.duration / 60)
    let cumMin' := cumMin + legMinutes
    let cumDist' := cumDist + leg.distance
    let ta := applyTrafficAdjustment hour cumMin'
    let stopEta : StopETA :=
      { stopId := stop.id
        stopName := stop.name
        etaMinutes := ta.adjusted
        distance := jsRoundQ cumDist'
        status := if idx = 0 then .next else .upcoming }
    let sa' := if some stop.id = tgt then (idx : ℤ) + 1 else sa
    let te' := if some stop.id = tgt then some stopEta else te
    let r := osrmStopEtas hour tgt rest (idx + 1) cumMin' cumDist' sa' te'
    (stopEta :: r.1, r.2)

/-- The `stops.map` loop of the haversine fallback branch of
`calculateMultiStopEta`; `prevLat`/`prevLon` is the previous waypoint.
Returns the built list, the final cumulative minutes and (inflated)
distance, and the final `stopsAway` / `targetStopEta`. -/
noncomputable def fallbackStopEtas (hour : ℕ) (tgt : Option ℤ) :
    List EtaStop → ℕ → ℝ → ℝ → ℤ → ℝ → ℤ → Option StopETA →
    List StopETA × ℤ × ℝ × ℤ × Option StopETA
  | [], _, _, _, cumMin, cumDist, sa, te => ([], cumMin, cumDist, sa, te)
  | stop :: rest, idx, prevLat, prevLon, cumMin, cumDist, sa, te =>
    let distance := calculateDistance prevLat prevLon stop.lat stop.lng
    let legMinutes := jsRoundR (distance / 1000 / 25 * 60)
    let cumMin' := cumMin + legMinutes
    let cumDist' := cumDist + distance * (14/10)
    let ta := applyTrafficAdjustment hour cumMin'
    let stopEta : StopETA :=
      { stopId := stop.id
        stopName := stop.name
        etaMinutes := ta.adjusted
        distance := jsRoundR cumDist'
        status := if idx = 0 then .next else .upcoming }
    let sa' := if some stop.id = tgt then (idx : ℤ) + 1 else sa
    let te' := if some stop.id = tgt then some stopEta else te
    let r := fallbackStopEtas hour tgt rest (idx + 1) stop.lat stop.lng cumMin' cumDist' sa' te'
    (stopEta :: r.1, r.2)

/-- The fallback tail of `calculateMultiStopEta` (after the
`OSRM multi-stop failed` warning): sequential haversine legs at 25 km/h,
distances inflated by 1.4, cumulative traffic adjustment.  Note the
returned `totalMinutes` is the raw cumulative minutes (not traffic
adjusted) in this branch. -/
noncomputable def multiStopFallback (hour : ℕ) (busLat busLon : ℝ)
    (stops : List EtaStop) (tgt : Option ℤ) : MultiStopETA :=
  let r := fallbackStopEtas hour tgt stops 0 busLat busLon 0 0 0 none
  { totalMinutes := r.2.1
    totalDistance := jsRoundR r.2.2.1
    stopsAway := r.2.2.2.1
    targetStopEta := r.2.2.2.2
    stops := r.1
    routeGeometry := none
    source := .fallback }

/-- `calculateMultiStopEta` (eta.service.ts).  The provider response
(`osrmService.getMultiStopRoute`) is injected as `routeResult`; the
returned `Bool` records whether the provider was invoked (the source
always calls it once the empty-stops guard is passed). -/
noncomputable def calculateMultiStopEta (routeResult : Option MultiStopRouteResult)
    (hour : ℕ) (busLat busLon : ℝ) (stops : List EtaStop)
    (targetStopId : Option ℤ) : MultiStopETA × Bool :=
  if stops.length = 0 then
    ({ totalMinutes := 0
       totalDistance := 0
       stopsAway := 0
       targetStopEta := none
       stops := []
       routeGeometry := none
       source := .fallback }, false)
  else
    match routeResult with
    | some r =>
      if r.legs.length = stops.length then
        let s := osrmStopEtas hour targetStopId (stops.zip r.legs) 0 0 0 0 none
        let taTot := applyTrafficAdjustment hour (jsRoundQ (r.totalDuration / 60))
        ({ totalMinutes := taTot.adjusted
           totalDistance := jsRoundQ r.totalDistance
           stopsAway := s.2.1
           targetStopEta := s.2.2
           stops := s.1
           routeGeometry := some r.geometry
           source := .osrm }, true)
      else
        (multiStopFallback hour busLat busLon stops targetStopId, true)
    | none =>
      (multiStopFallback hour busLat busLon stops targetStopId, true)

/-! ## OSRM route cache (osrm.service.ts, `src/unnamed/part_010`) -/

/-- Coordinates as handed to `OSRMService`.  JavaScript floats are binary
rationals, so `ℚ` models them exactly; the `toFixed` arithmetic below is
exact decimal rounding. -/
structure QCoord where
  lat : ℚ
  lng : ℚ
  deriving Repr, DecidableEq

/-- `x.toFixed(4)` as used by `getCacheKey`: the printed string is
`"-"` (iff `x < 0`) followed by `|x|` rounded half-up to 4 decimals; it is
determined by (and determines) the sign flag together with the integer
number of ten-thousandths. -/
def toFixed4 (q : ℚ) : Bool × ℤ := (decide (q < 0), jsRoundQ (|q| * 10000))

/-- `OSRMService.getCacheKey`: the template string
`lat,lng->lat,lng` of the four `toFixed(4)` renderings; two keys are equal
exactly when the four printed components are. -/
structure CacheKey where
  originLat : Bool × ℤ
  originLng : Bool × ℤ
  destLat : Bool × ℤ
  destLng : Bool × ℤ
  deriving Repr, DecidableEq

def getCacheKey (origin destination : QCoord) : CacheKey :=
  { originLat := toFixed4 origin.lat
    originLng := toFixed4 origin.lng
    destLat := toFixed4 destination.lat
    destLng := toFixed4 destination.lng }

/-- `CachedRoute` entry of the route cache. -/
structure CachedRoute where
  result : RouteResult
  timestamp : ℤ
  deriving Repr, DecidableEq

/-- The `Map<string, CachedRoute>` route cache, as an insertion-ordered
association list. -/
abbrev RouteCache := List (CacheKey × CachedRoute)

/-- `cacheTTL = 5 * 60 * 1000` milliseconds. -/
def cacheTTL : ℤ := 5 * 60 * 1000

/-- `Map.prototype.get`. -/
def cacheGet (c : RouteCache) (k : CacheKey) : Option CachedRoute :=
  (List.find? (fun p => p.1 == k) c).map (fun p => p.2)

/-- `Map.prototype.set`: replace the entry in place, or append. -/
def cacheSet (c : RouteCache) (k : CacheKey) (v : CachedRoute) : RouteCache :=
  if List.any c (fun p => p.1 == k) then
    List.map (fun p => if p.1 == k then (k, v) else p) c
  else
    List.append c [(k, v)]

/-- `OSRMService.isCacheValid`. -/
def isCacheValid (now : ℤ) (cached : CachedRoute) : Bool :=
  now - cached.timestamp < cacheTTL

/-- `OSRMService.getRoute`.  The HTTP round trip is injected as
`provider` (`none` = network error or no-route response, which the source
maps to `null` and does not cache).  Returns the route, the cache after
the call, and whether the provider was invoked. -/
def getRoute (provider : Option RouteResult) (now : ℤ) (useCache : Bool)
    (origin destination : QCoord) (cache : RouteCache) :
    Option RouteResult × RouteCache × Bool :=
  let hit : Option RouteResult :=
    if useCache then
      match cacheGet cache (getCacheKey origin destination) with
      | some cached => if isCacheValid now cached then some cached.result else none
      | none => none
    else none
  match hit with
  | some r => (some r, cache, false)
  | none =>
    match provider with
    | none => (none, cache, true)
    | some result =>
      let cache' :=
        if useCache then
          cacheSet cache (getCacheKey origin destination) { result := result, timestamp := now }
        else cache
      (some result, cache', true)

/-! ## Stop progress tracker (stop-progress.service.ts, `src/unnamed/part_001`) -/

/-- A route stop row as read by `StopProgressService` (`order` is the
route-sequence column the stops are sorted by). -/
structure SPStop where
  id : ℤ
  latitude : ℝ
  longitude : ℝ
  order : ℤ

/-- A route with its ordered stop list (`getActiveRoute` /
`getRouteStops`). -/
structure SPRoute where
  id : ℤ
  stops : List SPStop

/-- A `StopVisit` row; `tripDate` is the day key, timestamps are epoch
milliseconds. -/
structure VisitRecord where
  busId : ℤ
  stopId : ℤ
  routeId : ℤ
  tripDate : ℤ
  visitedAt : ℤ
  deriving Repr, DecidableEq

/-- The `busId_stopId_tripDate` unique-key match of the Prisma upsert. -/
def visitKey (busId stopId today : ℤ) (r : VisitRecord) : Bool :=
  r.busId == busId && r.stopId == stopId && r.tripDate == today

/-- `StopProgressService.markStopVisited`: a Prisma `upsert` on the
`(busId, stopId, tripDate)` unique key — `create` inserts a fresh row with
`visitedAt = now` (the schema default), `update` sets `visitedAt` of the
existing row to `new Date()`. -/
def markStopVisited (busId stopId routeId today now : ℤ)
    (vs : List VisitRecord) : List VisitRecord :=
  if vs.any (visitKey busId stopId today) then
    vs.map (fun r => if visitKey busId stopId today r then { r with visitedAt := now } else r)
  else
    vs ++ [{ busId := busId, stopId := stopId, routeId := routeId,
             tripDate := today, visitedAt := now }]

/-- `GEOFENCE_RADIUS = 100` meters. -/
def GEOFENCE_RADIUS : ℝ := 100

/-- `StopProgressService.processPositionUpdate`: for every stop of the
active route whose distance to the report is within the geofence radius,
run the upsert.  `route = none` models a bus with no active route (the
early return). -/
noncomputable def processPositionUpdate (route : Option SPRoute) (busId : ℤ)
    (posLat posLon : ℝ) (today now : ℤ) (vs : List VisitRecord) :
    List VisitRecord :=
  match route with
  | none => vs
  | some route =>
    route.stops.foldl (fun acc stop =>
      if calculateDistance posLat posLon stop.latitude stop.longitude ≤ GEOFENCE_RADIUS then
        markStopVisited busId stop.id route.id today now acc
      else acc) vs

/-- Status tag of the stop-progress view. -/
inductive StopState where
  | passed
  | current
  | upcoming
  deriving Repr, DecidableEq

/-- `StopStatus` of stop-progress.service.ts. -/
structure StopStatus where
  stopId : ℤ
  status : StopState
  passedAt : Option ℤ
  etaMinutes : Option ℤ
  deriving Repr, DecidableEq

/-- The cached raw position (`getCurrentPosition`). -/
structure BusPosition where
  latitude : ℝ
  longitude : ℝ

/-- `visits.sort((a, b) => b.visitedAt.getTime() - a.visitedAt.getTime())[0]`:
the visit with the greatest `visitedAt` (stable sort keeps the earlier
element first among equal timestamps). -/
def latestVisit? (visits : List VisitRecord) : Option VisitRecord :=
  visits.foldl (fun acc v =>
    match acc with
    | none => some v
    | some a => if v.visitedAt > a.visitedAt then some v else some a) none

/-- The "find current stop" block of `getStopProgress`: the most recently
visited stop is current while it is not the last stop of the route and its
visit is under 2 minutes old (`findIndex` yields `-1` for a stop id absent
from the list, as in the source). -/
def currentStopOfVisits (stops : List SPStop) (visits : List VisitRecord)
    (now : ℤ) : Option ℤ :=
  match latestVisit? visits with
  | none => none
  | some lastVisit =>
    let lastVisitedIndex : ℤ :=
      (stops.findIdx? (fun s => s.id == lastVisit.stopId)).elim (-1) (fun i => (i : ℤ))
    if lastVisitedIndex < (stops.length : ℤ) - 1 then
      if now - lastVisit.visitedAt < 2 * 60 * 1000 then some lastVisit.stopId
      else none
    else none

/-- `StopProgressService.getStopProgress`.  The datastore reads are
injected: `stops` is the route's stop list sorted by `order` ascending,
`visits` today's rows for the bus, `busPosition` the cached position,
`now` the clock, and `etaFn` the `calculateETAMinutes` collaborator (the
claims only depend on whether an ETA is attached, not on its value). -/
def getStopProgress (stops : List SPStop) (visits : List VisitRecord)
    (busPosition : Option BusPosition) (now : ℤ)
    (etaFn : BusPosition → SPStop → ℤ) : List StopStatus :=
  let currentStopId : Option ℤ := currentStopOfVisits stops visits now
  stops.map (fun stop =>
    match visits.find? (fun v => v.stopId == stop.id) with
    | some visit =>
      { stopId := stop.id
        status := if currentStopId == some stop.id then .current else .passed
        passedAt := some visit.visitedAt
        etaMinutes := none }
    | none =>
      { stopId := stop.id
        status := .upcoming
        passedAt := none
        etaMinutes := busPosition.map (fun p => etaFn p stop) })

/-- `StopProgressService.resetTripProgress`: delete today's visits for the
bus. -/
def resetTripProgress (busId today : ℤ) (vs : List VisitRecord) :
    List VisitRecord :=
  vs.filter (fun r => !(r.busId == busId && r.tripDate == today))

/-! ## C9 — haversine symmetry and identity -/

/-- C9: for every pair of coordinates, `calculateDistance a b` equals
`calculateDistance b a`, and `calculateDistance a a` equals `0`. -/
theorem C9_distance_symm_self :
    (∀ lat1 lon1 lat2 lon2 : ℝ,
      calculateDistance lat1 lon1 lat2 lon2 = calculateDistance lat2 lon2 lat1 lon1) ∧
    (∀ lat lon : ℝ, calculateDistance lat lon lat lon = 0) :=
  ⟨calculateDistance_comm, calculateDistance_self⟩

/-! ## C8 — empty multi-stop query -/

/-- C8: `calculateMultiStopEta` on an empty stop list returns the all-zero
result (`totalMinutes = 0`, `totalDistance = 0`, `stopsAway = 0`,
`targetStopEta = null`, empty per-stop list, `source = "fallback"`)
without invoking the routing provider and without failing. -/
theorem C8_empty_stop_list (routeResult : Option MultiStopRouteResult)
    (hour : ℕ) (busLat busLon : ℝ) (targetStopId : Option ℤ) :
    calculateMultiStopEta routeResult hour busLat busLon [] targetStopId =
      ({ totalMinutes := 0
         totalDistance := 0
         stopsAway := 0
         targetStopEta := none
         stops := []
         routeGeometry := none
         source := .fallback }, false) := rfl

/-! ## C3 — traffic bands and adjustment formula -/

/-- C3 counterexample: the claim says both confidence bounds are floored
at 1 minute, but for `baseMinutes = 0` at a normal hour (12:00) the code
returns `maxMinutes = round(0 × 1.2) = 0 < 1` (only the lower bound is
floored), so the range is `[1, 0]`. -/
theorem C3_max_not_floored :
    (applyTrafficAdjustment 12 0).rangeMax = 0 ∧
    ¬(1 ≤ (applyTrafficAdjustment 12 0).rangeMax) ∧
    (applyTrafficAdjustment 12 0).rangeMin = 1 := by
  norm_num [applyTrafficAdjustment, getTrafficMultiplier, jsRoundQ]

/-- C3 (amended): every integer hour 0–23 maps to exactly the four spec
bands (07–10 → 1.3 with factors 0.9–1.6, 16–20 → 1.4 with 0.95–1.8,
22–06 → 0.9 with 0.8–1.0, otherwise 1.0 with 0.85–1.2), and for every
base-minutes value the adjusted minutes are `round(base × multiplier)` and
the confidence range is `[max(1, round(base × minFactor)),
round(base × maxFactor)]` — only the lower bound is floored at 1. -/
theorem C3_traffic_adjustment (hour : ℕ) (_hh : hour ≤ 23) (base : ℤ) :
    applyTrafficAdjustment hour base =
      (if 7 ≤ hour ∧ hour ≤ 10 then
        { adjusted := jsRoundQ (base * (13/10))
          rangeMin := max 1 (jsRoundQ (base * (9/10)))
          rangeMax := jsRoundQ (base * (16/10)) }
      else if 16 ≤ hour ∧ hour ≤ 20 then
        { adjusted := jsRoundQ (base * (14/10))
          rangeMin := max 1 (jsRoundQ (base * (95/100)))
          rangeMax := jsRoundQ (base * (18/10)) }
      else if 22 ≤ hour ∨ hour ≤ 6 then
        { adjusted := jsRoundQ (base * (9/10))
          rangeMin := max 1 (jsRoundQ (base * (8/10)))
          rangeMax := jsRoundQ (base * 1) }
      else
        { adjusted := jsRoundQ (base * 1)
          rangeMin := max 1 (jsRoundQ (base * (85/100)))
          rangeMax := jsRoundQ (base * (12/10)) } : TrafficAdjusted) := by
  unfold applyTrafficAdjustment getTrafficMultiplier
  split_ifs <;> rfl

/-- Witness for C3: the spec's own example hour 9 (morning peak) with
30 base minutes. -/
theorem C3_traffic_adjustment_witness :
    (9 : ℕ) ≤ 23 ∧
    applyTrafficAdjustment 9 30 =
      (if 7 ≤ (9:ℕ) ∧ (9:ℕ) ≤ 10 then
        { adjusted := jsRoundQ (30 * (13/10))
          rangeMin := max 1 (jsRoundQ (30 * (9/10)))
          rangeMax := jsRoundQ (30 * (16/10)) }
      else if 16 ≤ (9:ℕ) ∧ (9:ℕ) ≤ 20 then
        { adjusted := jsRoundQ (30 * (14/10))
          rangeMin := max 1 (jsRoundQ (30 * (95/100)))
          rangeMax := jsRoundQ (30 * (18/10)) }
      else if 22 ≤ (9:ℕ) ∨ (9:ℕ) ≤ 6 then
        { adjusted := jsRoundQ (30 * (9/10))
          rangeMin := max 1 (jsRoundQ (30 * (8/10)))
          rangeMax := jsRoundQ (30 * 1) }
      else
        { adjusted := jsRoundQ (30 * 1)
          rangeMin := max 1 (jsRoundQ (30 * (85/100)))
          rangeMax := jsRoundQ (30 * (12/10)) } : TrafficAdjusted) :=
  ⟨by decide, C3_traffic_adjustment 9 (by decide) 30⟩

/-! ## Rounding lemmas -/

lemma jsRoundQ_mono {q r : ℚ} (h : q ≤ r) : jsRoundQ q ≤ jsRoundQ r :=
  Int.floor_le_floor (by linarith)

lemma jsRoundQ_one : jsRoundQ 1 = 1 := by norm_num [jsRoundQ]

lemma jsRoundR_ratCast (q : ℚ) : jsRoundR (q : ℝ) = jsRoundQ q := by
  unfold jsRoundR jsRoundQ
  rw [show ((q:ℝ) + 1/2) = ((q + 1/2 : ℚ) : ℝ) by push_cast; ring]
  exact Rat.floor_cast _

lemma jsRoundR_zero : jsRoundR 0 = 0 := by
  have h := jsRoundR_ratCast 0
  rw [show ((0:ℚ):ℝ) = (0:ℝ) by norm_num] at h
  rw [h]
  norm_num [jsRoundQ]

lemma jsRoundR_nonneg {x : ℝ} (hx : 0 ≤ x) : 0 ≤ jsRoundR x := by
  unfold jsRoundR
  rw [Int.le_floor]
  push_cast
  linarith

/-- `applyTrafficAdjustment` at zero base minutes is band-independent:
adjusted 0, range `[1, 0]`. -/
lemma applyTrafficAdjustment_zero (hour : ℕ) :
    applyTrafficAdjustment hour 0 = ⟨0, 1, 0⟩ := by
  unfold applyTrafficAdjustment getTrafficMultiplier
  split_ifs <;> · dsimp only; norm_num [jsRoundQ]

lemma jsRoundQ_scale_13_10 (t : ℤ) :
    jsRoundQ ((t:ℚ) * (13/10)) = ⌊(3 * t : ℚ) / 10 + 1/2⌋ + t := by
  unfold jsRoundQ
  rw [show ((t:ℚ) * (13/10) + 1/2) = ((3*t:ℚ)/10 + 1/2) + (t:ℚ) by ring]
  exact Int.floor_add_int _ _

lemma widen_13_10_ge {m M : ℤ} (hmM : m ≤ M) :
    M - m ≤ jsRoundQ ((M:ℚ) * (13/10)) - jsRoundQ ((m:ℚ) * (13/10)) := by
  rw [jsRoundQ_scale_13_10, jsRoundQ_scale_13_10]
  have hq : ((3 * m : ℚ)) / 10 + 1/2 ≤ ((3 * M : ℚ)) / 10 + 1/2 := by
    have : (m:ℚ) ≤ (M:ℚ) := by exact_mod_cast hmM
    linarith
  have := Int.floor_le_floor hq
  omega

lemma band_min_le_max {b : ℤ} (hb : 1 ≤ b) {minF maxF : ℚ}
    (h1 : minF ≤ maxF) (h2 : 1 ≤ maxF) :
    max 1 (jsRoundQ (b * minF)) ≤ jsRoundQ (b * maxF) := by
  have hbq : (1:ℚ) ≤ (b:ℚ) := by exact_mod_cast hb
  have hA : (1:ℚ) ≤ (b:ℚ) * maxF := by nlinarith
  have h1' : (1:ℤ) ≤ jsRoundQ ((b:ℚ) * maxF) := by
    have := jsRoundQ_mono hA
    rwa [jsRoundQ_one] at this
  have h2' : jsRoundQ ((b:ℚ) * minF) ≤ jsRoundQ ((b:ℚ) * maxF) :=
    jsRoundQ_mono (by nlinarith)
  exact max_le h1' h2'

lemma range_min_le_max (hour : ℕ) {b : ℤ} (hb : 1 ≤ b) :
    (applyTrafficAdjustment hour b).rangeMin ≤ (applyTrafficAdjustment hour b).rangeMax := by
  unfold applyTrafficAdjustment getTrafficMultiplier
  split_ifs <;> · dsimp only; exact band_min_le_max hb (by norm_num) (by norm_num)

/-- The fallback confidence range (routed bounds scaled by the 1.3
uncertainty multiplier and re-rounded) is never narrower than the routed
range built from the same base minutes. -/
lemma fallback_width_ge (hour : ℕ) {b : ℤ} (hb : 0 ≤ b) :
    (applyTrafficAdjustment hour b).rangeMax - (applyTrafficAdjustment hour b).rangeMin ≤
      (fallbackConfidence hour b).maxMinutes - (fallbackConfidence hour b).minMinutes := by
  rcases eq_or_lt_of_le hb with h0 | h1
  · rw [← h0]
    rw [show (fallbackConfidence hour 0).maxMinutes
        = jsRoundQ ((applyTrafficAdjustment hour 0).rangeMax * (13/10)) from rfl]
    rw [show (fallbackConfidence hour 0).minMinutes
        = jsRoundQ ((applyTrafficAdjustment hour 0).rangeMin * (13/10)) from rfl]
    rw [applyTrafficAdjustment_zero]
    norm_num [jsRoundQ]
  · have hmM := range_min_le_max hour (by omega : 1 ≤ b)
    have := widen_13_10_ge hmM
    unfold fallbackConfidence
    dsimp only
    omega

/-! ## C5 — fallback single-destination ETA -/

/-- C5 counterexample: with the provider returning no route and the
vehicle already at the destination (base minutes 0, hour 12:00), the
fallback confidence range equals the routed range `[1, 0]` for the same
base minutes — it is not strictly wider. -/
theorem C5_not_strictly_wider :
    (calculateEtaOSRM none 12 0 0 0 0 0 true).source = .fallback ∧
    ¬((applyTrafficAdjustment 12 0).rangeMax - (applyTrafficAdjustment 12 0).rangeMin <
      (calculateEtaOSRM none 12 0 0 0 0 0 true).confidenceRange.maxMinutes -
        (calculateEtaOSRM none 12 0 0 0 0 0 true).confidenceRange.minMinutes) := by
  have hr : calculateEtaOSRM none 12 0 0 0 0 0 true = calculateEtaFallback 12 0 0 0 0 0 := rfl
  have hd : calculateDistance (0:ℝ) 0 0 0 = 0 := calculateDistance_self 0 0
  have hbase : jsRoundR (calculateDistance (0:ℝ) 0 0 0 / 1000 / 25 * 60) = 0 := by
    rw [hd]
    norm_num [jsRoundR_zero]
  have hconf : (calculateEtaFallback 12 0 0 0 0 0).confidenceRange
      = fallbackConfidence 12 (jsRoundR (calculateDistance (0:ℝ) 0 0 0 / 1000 / 25 * 60)) := rfl
  constructor
  · rw [hr]; rfl
  · rw [hr, hconf, hbase, applyTrafficAdjustment_zero]
    rw [show (fallbackConfidence 12 0).maxMinutes
        = jsRoundQ ((applyTrafficAdjustment 12 0).rangeMax * (13/10)) from rfl]
    rw [show (fallbackConfidence 12 0).minMinutes
        = jsRoundQ ((applyTrafficAdjustment 12 0).rangeMin * (13/10)) from rfl]
    rw [applyTrafficAdjustment_zero]
    norm_num [jsRoundQ]

/-- C5 (amended): whenever the provider returns no route, the
single-destination query still returns a result, with
`source = "fallback"`, base minutes from the haversine distance at
25 km/h, reported distance the haversine distance inflated by 40% and
rounded, and confidence bounds equal to the routed bounds for the same
base minutes each scaled by 1.3 and rounded — a range at least as wide as
(but, for small bases, possibly equal to) the routed one. -/
theorem C5_fallback_shape (hour : ℕ) (now : ℤ) (clat clon dlat dlon : ℝ)
    (includeGeometry : Bool) :
    (calculateEtaOSRM none hour now clat clon dlat dlon includeGeometry).source
        = .fallback ∧
    (calculateEtaOSRM none hour now clat clon dlat dlon includeGeometry).minutes
        = (applyTrafficAdjustment hour
            (jsRoundR (calculateDistance clat clon dlat dlon / 1000 / 25 * 60))).adjusted ∧
    (calculateEtaOSRM none hour now clat clon dlat dlon includeGeometry).distance
        = jsRoundR (calculateDistance clat clon dlat dlon * (14/10)) ∧
    (calculateEtaOSRM none hour now clat clon dlat dlon includeGeometry).confidenceRange.minMinutes
        = jsRoundQ ((applyTrafficAdjustment hour
            (jsRoundR (calculateDistance clat clon dlat dlon / 1000 / 25 * 60))).rangeMin * (13/10)) ∧
    (calculateEtaOSRM none hour now clat clon dlat dlon includeGeometry).confidenceRange.maxMinutes
        = jsRoundQ ((applyTrafficAdjustment hour
            (jsRoundR (calculateDistance clat clon dlat dlon / 1000 / 25 * 60))).rangeMax * (13/10)) ∧
    (applyTrafficAdjustment hour
        (jsRoundR (calculateDistance clat clon dlat dlon / 1000 / 25 * 60))).rangeMax -
      (applyTrafficAdjustment hour
        (jsRoundR (calculateDistance clat clon dlat dlon / 1000 / 25 * 60))).rangeMin ≤
    (calculateEtaOSRM none hour now clat clon dlat dlon includeGeometry).confidenceRange.maxMinutes -
      (calculateEtaOSRM none hour now clat clon dlat dlon includeGeometry).confidenceRange.minMinutes := by
  have hb : 0 ≤ jsRoundR (calculateDistance clat clon dlat dlon / 1000 / 25 * 60) := by
    apply jsRoundR_nonneg
    have := calculateDistance_nonneg clat clon dlat dlon
    positivity
  refine ⟨rfl, rfl, rfl, rfl, rfl, ?_⟩
  exact fallback_width_ge hour hb

/-! ## Cache lemmas -/

lemma cacheGet_cacheSet_self (c : RouteCache) (k : CacheKey) (v : CachedRoute) :
    cacheGet (cacheSet c k v) k = some v := by
  induction c with
  | nil => simp [cacheSet, cacheGet]
  | cons p c ih =>
    by_cases hpk : p.1 = k
    · simp [cacheSet, cacheGet, hpk]
    · by_cases hany : c.any (fun q => q.1 == k)
      · have hset : cacheSet (p :: c) k v
            = (if p.1 == k then (k, v) else p) :: c.map (fun q => if q.1 == k then (k, v) else q) := by
          simp [cacheSet, hany]
        have hset' : cacheSet c k v = c.map (fun q => if q.1 == k then (k, v) else q) := by
          simp [cacheSet, hany]
        rw [hset]
        rw [show (if p.1 == k then (k, v) else p) = p by simp [hpk]]
        unfold cacheGet
        rw [List.find?_cons_of_neg _ (by simp [hpk])]
        rw [hset'] at ih
        exact ih
      · have hset : cacheSet (p :: c) k v = (p :: c) ++ [(k, v)] := by
          simp [cacheSet, hany, hpk]
        have hset' : cacheSet c k v = c ++ [(k, v)] := by
          simp [cacheSet, hany]
        rw [hset]
        unfold cacheGet
        rw [show ((p :: c) ++ [(k, v)]) = p :: (c ++ [(k, v)]) by simp]
        rw [List.find?_cons_of_neg _ (by simp [hpk])]
        rw [hset'] at ih
        exact ih

/-! ## C6 — cache key rounding -/

/-- C6 counterexample: origin latitudes `1.00001` and `1.00009` agree on
the first four decimal places (both floor to `10000` ten-thousandths),
yet `toFixed(4)` rounds them to `1.0000` and `1.0001` respectively, so the
cache keys differ and both calls invoke the provider. -/
theorem C6_fourth_decimal_split :
    (⌊(100001/100000 : ℚ) * 10000⌋ = 10000 ∧ ⌊(100009/100000 : ℚ) * 10000⌋ = 10000) ∧
    getCacheKey ⟨100001/100000, 2⟩ ⟨3, 4⟩ ≠ getCacheKey ⟨100009/100000, 2⟩ ⟨3, 4⟩ ∧
    (getRoute (some ⟨600, 5000, "g"⟩) 0 true ⟨100001/100000, 2⟩ ⟨3, 4⟩ []).2.2 = true ∧
    (getRoute (some ⟨600, 5000, "g"⟩) 1 true ⟨100009/100000, 2⟩ ⟨3, 4⟩
        ((getRoute (some ⟨600, 5000, "g"⟩) 0 true ⟨100001/100000, 2⟩ ⟨3, 4⟩ []).2.1)).2.2
      = true := by
  have hf1 : toFixed4 (100001/100000 : ℚ) = (false, 10000) := by
    norm_num [toFixed4, jsRoundQ, abs_of_nonneg]
  have hf2 : toFixed4 (100009/100000 : ℚ) = (false, 10001) := by
    norm_num [toFixed4, jsRoundQ, abs_of_nonneg]
  have hf3 : toFixed4 (2 : ℚ) = (false, 20000) := by
    norm_num [toFixed4, jsRoundQ, abs_of_nonneg]
  have hf4 : toFixed4 (3 : ℚ) = (false, 30000) := by
    norm_num [toFixed4, jsRoundQ, abs_of_nonneg]
  have hf5 : toFixed4 (4 : ℚ) = (false, 40000) := by
    norm_num [toFixed4, jsRoundQ, abs_of_nonneg]
  have hk1 : getCacheKey ⟨100001/100000, 2⟩ ⟨3, 4⟩
      = ⟨(false, 10000), (false, 20000), (false, 30000), (false, 40000)⟩ := by
    simp [getCacheKey, hf1, hf3, hf4, hf5]
  have hk2 : getCacheKey ⟨100009/100000, 2⟩ ⟨3, 4⟩
      = ⟨(false, 10001), (false, 20000), (false, 30000), (false, 40000)⟩ := by
    simp [getCacheKey, hf2, hf3, hf4, hf5]
  have hc1 : getRoute (some ⟨600, 5000, "g"⟩) 0 true ⟨100001/100000, 2⟩ ⟨3, 4⟩ []
      = (some ⟨600, 5000, "g"⟩,
         [(⟨(false, 10000), (false, 20000), (false, 30000), (false, 40000)⟩,
           ⟨⟨600, 5000, "g"⟩, 0⟩)], true) := by
    simp [getRoute, cacheGet, cacheSet, hk1]
  refine ⟨⟨by norm_num, by norm_num⟩, ?_, ?_, ?_⟩
  · rw [hk1, hk2]
    simp
  · rw [hc1]
  · rw [hc1]
    simp only
    simp [getRoute, cacheGet, cacheSet, hk2]

/-- C6 (amended): two single-pair lookups whose coordinates *round* to the
same four decimal places (`toFixed(4)` rounds, it does not truncate) and
that occur within the 5-minute TTL share the cache key; if the first call
misses the cache and the provider answers it, the provider is invoked only
by that first call and the second call answers from the cache with the
same result. -/
theorem C6_rounded_key_cache (o1 d1 o2 d2 : QCoord) (cache : RouteCache)
    (p1 p2 : Option RouteResult) (t1 t2 : ℤ) (r : RouteResult)
    (hlat : toFixed4 o1.lat = toFixed4 o2.lat)
    (hlng : toFixed4 o1.lng = toFixed4 o2.lng)
    (hdlat : toFixed4 d1.lat = toFixed4 d2.lat)
    (hdlng : toFixed4 d1.lng = toFixed4 d2.lng)
    (hmiss : cacheGet cache (getCacheKey o1 d1) = none)
    (hp1 : p1 = some r)
    (ht : t2 - t1 < cacheTTL) :
    getCacheKey o1 d1 = getCacheKey o2 d2 ∧
    (getRoute p1 t1 true o1 d1 cache).1 = some r ∧
    (getRoute p1 t1 true o1 d1 cache).2.2 = true ∧
    (getRoute p2 t2 true o2 d2 ((getRoute p1 t1 true o1 d1 cache).2.1)).2.2 = false ∧
    (getRoute p2 t2 true o2 d2 ((getRoute p1 t1 true o1 d1 cache).2.1)).1 = some r := by
  have hkey : getCacheKey o1 d1 = getCacheKey o2 d2 := by
    unfold getCacheKey
    rw [hlat, hlng, hdlat, hdlng]
  have hc1 : getRoute p1 t1 true o1 d1 cache
      = (some r, cacheSet cache (getCacheKey o1 d1) ⟨r, t1⟩, true) := by
    rw [hp1]
    simp [getRoute, hmiss]
  have hget2 : cacheGet (cacheSet cache (getCacheKey o1 d1) ⟨r, t1⟩) (getCacheKey o2 d2)
      = some ⟨r, t1⟩ := by
    rw [← hkey]
    exact cacheGet_cacheSet_self _ _ _
  have hvalid : isCacheValid t2 ⟨r, t1⟩ = true := by
    simp [isCacheValid]
    exact ht
  refine ⟨hkey, by rw [hc1], by rw [hc1], ?_, ?_⟩ <;>
  · rw [hc1]
    simp only
    simp [getRoute, hget2, hvalid]

/-- Witness for C6 (amended): origin latitudes `1.00001` and `1.00004`
both round to `1.0000`; the second call one millisecond later hits the
cache. -/
theorem C6_rounded_key_cache_witness :
    getCacheKey ⟨100001/100000, 2⟩ ⟨3, 4⟩ = getCacheKey ⟨100004/100000, 2⟩ ⟨3, 4⟩ ∧
    (getRoute (some ⟨600, 5000, "g"⟩) 0 true ⟨100001/100000, 2⟩ ⟨3, 4⟩ []).1
        = some ⟨600, 5000, "g"⟩ ∧
    (getRoute (some ⟨600, 5000, "g"⟩) 0 true ⟨100001/100000, 2⟩ ⟨3, 4⟩ []).2.2 = true ∧
    (getRoute none 1 true ⟨100004/100000, 2⟩ ⟨3, 4⟩
        ((getRoute (some ⟨600, 5000, "g"⟩) 0 true ⟨100001/100000, 2⟩ ⟨3, 4⟩ []).2.1)).2.2
      = false ∧
    (getRoute none 1 true ⟨100004/100000, 2⟩ ⟨3, 4⟩
        ((getRoute (some ⟨600, 5000, "g"⟩) 0 true ⟨100001/100000, 2⟩ ⟨3, 4⟩ []).2.1)).1
      = some ⟨600, 5000, "g"⟩ :=
  C6_rounded_key_cache ⟨100001/100000, 2⟩ ⟨3, 4⟩ ⟨100004/100000, 2⟩ ⟨3, 4⟩ []
    (some ⟨600, 5000, "g"⟩) none 0 1 ⟨600, 5000, "g"⟩
    (by norm_num [toFixed4, jsRoundQ, abs_of_nonneg])
    (by norm_num [toFixed4, jsRoundQ, abs_of_nonneg])
    (by norm_num [toFixed4, jsRoundQ, abs_of_nonneg])
    (by norm_num [toFixed4, jsRoundQ, abs_of_nonneg])
    rfl rfl (by norm_num [cacheTTL])

/-! ## Visit-recording lemmas -/

lemma visitKey_ignores_visitedAt (b0 s0 d0 now : ℤ) (r : VisitRecord) :
    visitKey b0 s0 d0 { r with visitedAt := now } = visitKey b0 s0 d0 r := rfl

lemma visitKey_of_update (b0 s0 d0 b s d now : ℤ) (r : VisitRecord) :
    visitKey b0 s0 d0 (if visitKey b s d r then { r with visitedAt := now } else r)
      = visitKey b0 s0 d0 r := by
  split_ifs with h
  · exact visitKey_ignores_visitedAt b0 s0 d0 now r
  · rfl

lemma visitKey_new (b0 s0 d0 b s rid d now : ℤ)
    (h : visitKey b0 s0 d0 { busId := b, stopId := s, routeId := rid,
                             tripDate := d, visitedAt := now } = true) :
    b0 = b ∧ s0 = s ∧ d0 = d := by
  simp [visitKey] at h
  refine ⟨?_, ?_, ?_⟩ <;> omega

lemma markStopVisited_preserves_any (b s rid today now b0 s0 d0 : ℤ)
    (vs : List VisitRecord)
    (hex : vs.any (visitKey b0 s0 d0) = true) :
    (markStopVisited b s rid today now vs).any (visitKey b0 s0 d0) = true := by
  unfold markStopVisited
  split_ifs with hown
  · rw [List.any_map]
    rw [List.any_eq_true] at hex ⊢
    obtain ⟨r, hr, hk⟩ := hex
    refine ⟨r, hr, ?_⟩
    simpa [Function.comp, visitKey_of_update] using hk
  · rw [List.any_append]
    rw [hex]
    rfl

lemma markStopVisited_countP_key (b s rid today now b0 s0 d0 : ℤ)
    (vs : List VisitRecord)
    (hex : vs.any (visitKey b0 s0 d0) = true) :
    (markStopVisited b s rid today now vs).countP (visitKey b0 s0 d0)
      = vs.countP (visitKey b0 s0 d0) := by
  unfold markStopVisited
  split_ifs with hown
  · rw [List.countP_map]
    apply List.countP_congr
    intro r _
    simp [Function.comp, visitKey_of_update]
  · rw [List.countP_append]
    have hnew : visitKey b0 s0 d0
        { busId := b, stopId := s, routeId := rid, tripDate := today, visitedAt := now }
          = false := by
      by_contra hc
      rw [Bool.not_eq_false] at hc
      obtain ⟨h1, h2, h3⟩ := visitKey_new b0 s0 d0 b s rid today now hc
      subst h1; subst h2; subst h3
      exact hown hex
    simp [List.countP_cons, hnew]

lemma markStopVisited_preserves_now_record (b s rid today now b0 s0 d0 : ℤ)
    (vs : List VisitRecord)
    (hQ : ∃ r ∈ vs, visitKey b0 s0 d0 r = true ∧ r.visitedAt = now) :
    ∃ r ∈ markStopVisited b s rid today now vs,
      visitKey b0 s0 d0 r = true ∧ r.visitedAt = now := by
  obtain ⟨r, hr, hk, hv⟩ := hQ
  unfold markStopVisited
  split_ifs with hown
  · refine ⟨(fun x => if visitKey b s today x then { x with visitedAt := now } else x) r,
      List.mem_map_of_mem _ hr, ?_, ?_⟩
    · rw [visitKey_of_update]
      exact hk
    · by_cases hbr : visitKey b s today r <;> simp [hbr, hv]
  · exact ⟨r, List.mem_append_left _ hr, hk, hv⟩

lemma markStopVisited_sets_now (b s rid today now : ℤ) (vs : List VisitRecord)
    (hex : vs.any (visitKey b s today) = true) :
    ∃ r ∈ markStopVisited b s rid today now vs,
      visitKey b s today r = true ∧ r.visitedAt = now := by
  rw [List.any_eq_true] at hex
  obtain ⟨r, hr, hk⟩ := hex
  unfold markStopVisited
  rw [if_pos (List.any_eq_true.mpr ⟨r, hr, hk⟩)]
  refine ⟨{ r with visitedAt := now }, ?_, ?_, rfl⟩
  · have : { r with visitedAt := now }
        = (fun x => if visitKey b s today x then { x with visitedAt := now } else x) r := by
      simp [hk]
    rw [this]
    exact List.mem_map_of_mem _ hr
  · rw [visitKey_ignores_visitedAt]
    exact hk

lemma fold_preserves_any (busId rid : ℤ) (posLat posLon : ℝ) (today now b0 s0 d0 : ℤ) :
    ∀ (stops : List SPStop) (vs : List VisitRecord),
      vs.any (visitKey b0 s0 d0) = true →
      (stops.foldl (fun acc stop =>
          if calculateDistance posLat posLon stop.latitude stop.longitude ≤ GEOFENCE_RADIUS then
            markStopVisited busId stop.id rid today now acc
          else acc) vs).any (visitKey b0 s0 d0) = true := by
  intro stops
  induction stops with
  | nil => intro vs h; exact h
  | cons st rest ih =>
    intro vs h
    rw [List.foldl_cons]
    apply ih
    by_cases hd : calculateDistance posLat posLon st.latitude st.longitude ≤ GEOFENCE_RADIUS
    · rw [if_pos hd]
      exact markStopVisited_preserves_any _ _ _ _ _ _ _ _ _ h
    · rw [if_neg hd]
      exact h

lemma fold_countP_key (busId rid : ℤ) (posLat posLon : ℝ) (today now b0 s0 d0 : ℤ) :
    ∀ (stops : List SPStop) (vs : List VisitRecord),
      vs.any (visitKey b0 s0 d0) = true →
      (stops.foldl (fun acc stop =>
          if calculateDistance posLat posLon stop.latitude stop.longitude ≤ GEOFENCE_RADIUS then
            markStopVisited busId stop.id rid today now acc
          else acc) vs).countP (visitKey b0 s0 d0) = vs.countP (visitKey b0 s0 d0) := by
  intro stops
  induction stops with
  | nil => intro vs _; rfl
  | cons st rest ih =>
    intro vs h
    rw [List.foldl_cons]
    by_cases hd : calculateDistance posLat posLon st.latitude st.longitude ≤ GEOFENCE_RADIUS
    · rw [if_pos hd]
      rw [ih _ (markStopVisited_preserves_any _ _ _ _ _ _ _ _ _ h)]
      exact markStopVisited_countP_key _ _ _ _ _ _ _ _ _ h
    · rw [if_neg hd]
      exact ih _ h

lemma fold_preserves_now_record (busId rid : ℤ) (posLat posLon : ℝ)
    (today now b0 s0 d0 : ℤ) :
    ∀ (stops : List SPStop) (vs : List VisitRecord),
      (∃ r ∈ vs, visitKey b0 s0 d0 r = true ∧ r.visitedAt = now) →
      ∃ r ∈ stops.foldl (fun acc stop =>
          if calculateDistance posLat posLon stop.latitude stop.longitude ≤ GEOFENCE_RADIUS then
            markStopVisited busId stop.id rid today now acc
          else acc) vs, visitKey b0 s0 d0 r = true ∧ r.visitedAt = now := by
  intro stops
  induction stops with
  | nil => intro vs h; exact h
  | cons st rest ih =>
    intro vs h
    rw [List.foldl_cons]
    apply ih
    by_cases hd : calculateDistance posLat posLon st.latitude st.longitude ≤ GEOFENCE_RADIUS
    · rw [if_pos hd]
      exact markStopVisited_preserves_now_record _ _ _ _ _ _ _ _ _ h
    · rw [if_neg hd]
      exact h

lemma fold_sets_now (busId rid : ℤ) (posLat posLon : ℝ) (today now : ℤ)
    (stop : SPStop) :
    ∀ (stops : List SPStop) (vs : List VisitRecord), stop ∈ stops →
      calculateDistance posLat posLon stop.latitude stop.longitude ≤ GEOFENCE_RADIUS →
      vs.any (visitKey busId stop.id today) = true →
      ∃ r ∈ stops.foldl (fun acc st =>
          if calculateDistance posLat posLon st.latitude st.longitude ≤ GEOFENCE_RADIUS then
            markStopVisited busId st.id rid today now acc
          else acc) vs, visitKey busId stop.id today r = true ∧ r.visitedAt = now := by
  intro stops
  induction stops with
  | nil => intro vs h; exact absurd h (List.not_mem_nil stop)
  | cons st rest ih =>
    intro vs hmem hdist hex
    rw [List.foldl_cons]
    rcases List.mem_cons.mp hmem with heq | htail
    · subst heq
      rw [if_pos hdist]
      exact fold_preserves_now_record busId rid posLat posLon today now busId stop.id today
        rest _ (markStopVisited_sets_now _ _ _ _ _ _ hex)
    · by_cases hd : calculateDistance posLat posLon st.latitude st.longitude ≤ GEOFENCE_RADIUS
      · rw [if_pos hd]
        exact ih _ htail hdist (markStopVisited_preserves_any _ _ _ _ _ _ _ _ _ hex)
      · rw [if_neg hd]
        exact ih _ htail hdist hex

/-! ## C1 — idempotence of visit recording -/

/-- C1 counterexample: with an existing `VisitRecord` (visitedAt 0) for
stop 1, a further report inside the geofence at time 5 leaves one record
but rewrites its `visitedAt` to 5 (the Prisma upsert's
`update: { visitedAt: new Date() }` branch) — the state is changed, so
processing is not a no-op as claimed. -/
theorem C1_repeat_entry_updates_visitedAt :
    processPositionUpdate (some ⟨3, [⟨1, 10, 20, 1⟩]⟩) 7 10 20 0 5
        [⟨7, 1, 3, 0, 0⟩] = [⟨7, 1, 3, 0, 5⟩] ∧
    ([⟨7, 1, 3, 0, 5⟩] : List VisitRecord) ≠ [⟨7, 1, 3, 0, 0⟩] := by
  constructor
  · have hd : calculateDistance (10:ℝ) 20 10 20 = 0 := calculateDistance_self 10 20
    unfold processPositionUpdate
    dsimp only
    rw [List.foldl_cons, List.foldl_nil]
    rw [if_pos (by rw [hd]; norm_num [GEOFENCE_RADIUS])]
    decide
  · decide

/-- C1 (amended): once a `VisitRecord` exists for `(vehicle, stop, day)`,
a further position report inside that stop's geofence on the same day
creates no second record for that key — but it is not a strict no-op: the
existing record's `visitedAt` is refreshed to the time of the new
report. -/
theorem C1_no_second_record_but_timestamp_refreshed
    (route : SPRoute) (stop : SPStop) (busId today now : ℤ)
    (posLat posLon : ℝ) (vs : List VisitRecord)
    (hstop : stop ∈ route.stops)
    (hdist : calculateDistance posLat posLon stop.latitude stop.longitude ≤ GEOFENCE_RADIUS)
    (hex : vs.any (visitKey busId stop.id today) = true) :
    ((processPositionUpdate (some route) busId posLat posLon today now vs).countP
        (visitKey busId stop.id today) = vs.countP (visitKey busId stop.id today)) ∧
    (∃ r ∈ processPositionUpdate (some route) busId posLat posLon today now vs,
        visitKey busId stop.id today r = true ∧ r.visitedAt = now) := by
  constructor
  · exact fold_countP_key busId route.id posLat posLon today now busId stop.id today
      route.stops vs hex
  · exact fold_sets_now busId route.id posLat posLon today now stop route.stops vs
      hstop hdist hex

/-- Witness for C1 (amended): the concrete repeat-entry scenario of the
counterexample. -/
theorem C1_no_second_record_witness :
    ((processPositionUpdate (some ⟨3, [⟨1, 10, 20, 1⟩]⟩) 7 10 20 0 5
        [⟨7, 1, 3, 0, 0⟩]).countP (visitKey 7 1 0)
      = ([⟨7, 1, 3, 0, 0⟩] : List VisitRecord).countP (visitKey 7 1 0)) ∧
    (∃ r ∈ processPositionUpdate (some ⟨3, [⟨1, 10, 20, 1⟩]⟩) 7 10 20 0 5
        [⟨7, 1, 3, 0, 0⟩], visitKey 7 1 0 r = true ∧ r.visitedAt = 5) :=
  C1_no_second_record_but_timestamp_refreshed ⟨3, [⟨1, 10, 20, 1⟩]⟩ ⟨1, 10, 20, 1⟩
    7 0 5 10 20 [⟨7, 1, 3, 0, 0⟩]
    (List.mem_cons_self _ _)
    (by rw [calculateDistance_self]; norm_num [GEOFENCE_RADIUS])
    (by decide)

/-! ## C2 — forward-only progression -/

/-- C2: the code has no sequence-order guard.  With stop 2 (order 2)
already visited, a report inside the geofence of stop 1 (order 1 — behind
the highest visited order) *creates* a `VisitRecord` for stop 1, which the
spec's anti-backward policy forbids.  The roadmap document containing the
service ("Bus goes backwards → only allow forward progression, ignore
backward movement") confirms the intent, so this is a code bug. -/
theorem C2_backward_stop_still_recorded :
    ((⟨1, 10, 20, 1⟩ : SPStop).order < (⟨2, 10, 20, 2⟩ : SPStop).order) ∧
    (([⟨7, 2, 3, 0, 0⟩] : List VisitRecord).any (visitKey 7 1 0) = false) ∧
    ((processPositionUpdate (some ⟨3, [⟨1, 10, 20, 1⟩, ⟨2, 10, 20, 2⟩]⟩) 7 10 20 0 5
        [⟨7, 2, 3, 0, 0⟩]).any (visitKey 7 1 0) = true) := by
  refine ⟨by decide, by decide, ?_⟩
  have hd : calculateDistance (10:ℝ) 20 10 20 = 0 := calculateDistance_self 10 20
  unfold processPositionUpdate
  dsimp only
  rw [List.foldl_cons, List.foldl_cons, List.foldl_nil]
  rw [if_pos (by rw [hd]; norm_num [GEOFENCE_RADIUS])]
  rw [if_pos (by rw [hd]; norm_num [GEOFENCE_RADIUS])]
  decide

/-! ## Multi-stop recursion lemmas -/

lemma osrmStopEtas_length (hour : ℕ) (tgt : Option ℤ) :
    ∀ (pairs : List (EtaStop × RouteLeg)) (idx : ℕ) (cm : ℤ) (cd : ℚ) (sa : ℤ)
      (te : Option StopETA),
      (osrmStopEtas hour tgt pairs idx cm cd sa te).1.length = pairs.length := by
  intro pairs
  induction pairs with
  | nil => intro idx cm cd sa te; rfl
  | cons p rest ih =>
    intro idx cm cd sa te
    obtain ⟨stop, leg⟩ := p
    simp only [osrmStopEtas, List.length_cons]
    rw [ih]

lemma fallbackStopEtas_length (hour : ℕ) (tgt : Option ℤ) :
    ∀ (stops : List EtaStop) (idx : ℕ) (pl pn : ℝ) (cm : ℤ) (cd : ℝ) (sa : ℤ)
      (te : Option StopETA),
      (fallbackStopEtas hour tgt stops idx pl pn cm cd sa te).1.length = stops.length := by
  intro stops
  induction stops with
  | nil => intro idx pl pn cm cd sa te; rfl
  | cons s rest ih =>
    intro idx pl pn cm cd sa te
    simp only [fallbackStopEtas, List.length_cons]
    rw [ih]

lemma osrmStopEtas_no_target (hour : ℕ) (tgt : Option ℤ) :
    ∀ (pairs : List (EtaStop × RouteLeg)) (idx : ℕ) (cm : ℤ) (cd : ℚ) (sa : ℤ)
      (te : Option StopETA),
      (∀ p ∈ pairs, some p.1.id ≠ tgt) →
      (osrmStopEtas hour tgt pairs idx cm cd sa te).2 = (sa, te) := by
  intro pairs
  induction pairs with
  | nil => intro idx cm cd sa te _; rfl
  | cons p rest ih =>
    intro idx cm cd sa te h
    obtain ⟨stop, leg⟩ := p
    have hne : ¬(some stop.id = tgt) := h (stop, leg) (List.mem_cons_self _ _)
    simp only [osrmStopEtas, if_neg hne]
    exact ih (idx + 1) _ _ sa te (fun q hq => h q (List.mem_cons_of_mem _ hq))

lemma fallbackStopEtas_no_target (hour : ℕ) (tgt : Option ℤ) :
    ∀ (stops : List EtaStop) (idx : ℕ) (pl pn : ℝ) (cm : ℤ) (cd : ℝ) (sa : ℤ)
      (te : Option StopETA),
      (∀ s ∈ stops, some s.id ≠ tgt) →
      (fallbackStopEtas hour tgt stops idx pl pn cm cd sa te).2.2.2 = (sa, te) := by
  intro stops
  induction stops with
  | nil => intro idx pl pn cm cd sa te _; rfl
  | cons s rest ih =>
    intro idx pl pn cm cd sa te h
    have hne : ¬(some s.id = tgt) := h s (List.mem_cons_self _ _)
    simp only [fallbackStopEtas, if_neg hne]
    exact ih (idx + 1) _ _ _ _ sa te (fun q hq => h q (List.mem_cons_of_mem _ hq))

/-! ## Branch equations for `calculateMultiStopEta` -/

lemma calculateMultiStopEta_none (hour : ℕ) (busLat busLon : ℝ)
    (stops : List EtaStop) (tgt : Option ℤ) (h : ¬(stops.length = 0)) :
    calculateMultiStopEta none hour busLat busLon stops tgt
      = (multiStopFallback hour busLat busLon stops tgt, true) := by
  unfold calculateMultiStopEta
  rw [if_neg h]

lemma calculateMultiStopEta_mismatch (r : MultiStopRouteResult) (hour : ℕ)
    (busLat busLon : ℝ) (stops : List EtaStop) (tgt : Option ℤ)
    (h : ¬(stops.length = 0)) (hleg : ¬(r.legs.length = stops.length)) :
    calculateMultiStopEta (some r) hour busLat busLon stops tgt
      = (multiStopFallback hour busLat busLon stops tgt, true) := by
  unfold calculateMultiStopEta
  rw [if_neg h]
  dsimp only
  rw [if_neg hleg]

lemma calculateMultiStopEta_routed (r : MultiStopRouteResult) (hour : ℕ)
    (busLat busLon : ℝ) (stops : List EtaStop) (tgt : Option ℤ)
    (h : ¬(stops.length = 0)) (hleg : r.legs.length = stops.length) :
    calculateMultiStopEta (some r) hour busLat busLon stops tgt
      = ({ totalMinutes :=
             (applyTrafficAdjustment hour (jsRoundQ (r.totalDuration / 60))).adjusted
           totalDistance := jsRoundQ r.totalDistance
           stopsAway := (osrmStopEtas hour tgt (stops.zip r.legs) 0 0 0 0 none).2.1
           targetStopEta := (osrmStopEtas hour tgt (stops.zip r.legs) 0 0 0 0 none).2.2
           stops := (osrmStopEtas hour tgt (stops.zip r.legs) 0 0 0 0 none).1
           routeGeometry := some r.geometry
           source := .osrm }, true) := by
  unfold calculateMultiStopEta
  rw [if_neg h]
  dsimp only
  rw [if_pos hleg]

/-! ## C10 — unmatched target stop id -/

/-- C10: a non-empty multi-stop query whose `targetStopId` matches no
listed stop still returns a per-stop ETA for every stop, but reports
`stopsAway = 0` and `targetStopEta = null` — the same not-found shape as
an empty query — in both the routed and the fallback path. -/
theorem C10_target_not_found (routeResult : Option MultiStopRouteResult)
    (hour : ℕ) (busLat busLon : ℝ) (stops : List EtaStop) (t : ℤ)
    (hne : stops ≠ [])
    (htgt : ∀ s ∈ stops, s.id ≠ t) :
    (calculateMultiStopEta routeResult hour busLat busLon stops (some t)).1.stopsAway = 0 ∧
    (calculateMultiStopEta routeResult hour busLat busLon stops (some t)).1.targetStopEta
      = none ∧
    (calculateMultiStopEta routeResult hour busLat busLon stops (some t)).1.stops.length
      = stops.length := by
  have hlen0 : ¬(stops.length = 0) := by
    simpa [List.length_eq_zero] using hne
  have hfb : ∀ pl pn : ℝ,
      (multiStopFallback hour pl pn stops (some t)).stopsAway = 0 ∧
      (multiStopFallback hour pl pn stops (some t)).targetStopEta = none ∧
      (multiStopFallback hour pl pn stops (some t)).stops.length = stops.length := by
    intro pl pn
    have h2 := fallbackStopEtas_no_target hour (some t) stops 0 pl pn 0 0 0 none
      (fun s hs => by simpa using htgt s hs)
    exact ⟨congrArg Prod.fst h2, congrArg Prod.snd h2,
      fallbackStopEtas_length hour (some t) stops 0 pl pn 0 0 0 none⟩
  rcases routeResult with _ | r
  · rw [calculateMultiStopEta_none hour busLat busLon stops (some t) hlen0]
    exact hfb busLat busLon
  · by_cases hleg : r.legs.length = stops.length
    · rw [calculateMultiStopEta_routed r hour busLat busLon stops (some t) hlen0 hleg]
      have hz : ∀ p ∈ stops.zip r.legs, some p.1.id ≠ some t := by
        intro p hp
        have := (List.of_mem_zip hp).1
        simpa using htgt p.1 this
      have h2 := osrmStopEtas_no_target hour (some t) (stops.zip r.legs) 0 0 0 0 none hz
      refine ⟨congrArg Prod.fst h2, congrArg Prod.snd h2, ?_⟩
      dsimp only
      rw [osrmStopEtas_length, List.length_zip, hleg]
      exact Nat.min_self _
    · rw [calculateMultiStopEta_mismatch r hour busLat busLon stops (some t) hlen0 hleg]
      exact hfb busLat busLon

/-- Witness for C10: a single stop with id 1 queried with target id 99,
provider unavailable. -/
theorem C10_target_not_found_witness :
    (calculateMultiStopEta none 12 0 0 [⟨1, "A", 0, 0⟩] (some 99)).1.stopsAway = 0 ∧
    (calculateMultiStopEta none 12 0 0 [⟨1, "A", 0, 0⟩] (some 99)).1.targetStopEta = none ∧
    (calculateMultiStopEta none 12 0 0 [⟨1, "A", 0, 0⟩] (some 99)).1.stops.length
      = ([⟨1, "A", 0, 0⟩] : List EtaStop).length :=
  C10_target_not_found none 12 0 0 [⟨1, "A", 0, 0⟩] 99
    (by simp)
    (by intro s hs; simp at hs; rw [hs]; decide)

/-! ## C4 — cumulative traffic adjustment in the multi-stop paths -/

/-- Cumulative base minutes through leg `i` of a routed result: each leg
duration rounded to minutes, summed over the legs up to and including
`i`. -/
def osrmCumMin (legs : List RouteLeg) (i : ℕ) : ℤ :=
  ((legs.take (i+1)).map (fun l => jsRoundQ (l.duration / 60))).sum

/-- Cumulative provider distance through leg `i` of a routed result. -/
def osrmCumDist (legs : List RouteLeg) (i : ℕ) : ℚ :=
  ((legs.take (i+1)).map RouteLeg.distance).sum

/-- The haversine leg distances of the fallback path: from the vehicle to
the first stop, then stop to stop. -/
noncomputable def legDistList : ℝ → ℝ → List EtaStop → List ℝ
  | _, _, [] => []
  | pl, pn, s :: rest => calculateDistance pl pn s.lat s.lng :: legDistList s.lat s.lng rest

/-- Cumulative fallback base minutes through leg `i`: each haversine leg
at 25 km/h rounded to minutes, summed. -/
noncomputable def fbCumMin (ds : List ℝ) (i : ℕ) : ℤ :=
  ((ds.take (i+1)).map (fun d => jsRoundR (d / 1000 / 25 * 60))).sum

/-- Cumulative fallback distance through leg `i`: each haversine leg
inflated by 1.4, summed. -/
noncomputable def fbCumDist (ds : List ℝ) (i : ℕ) : ℝ :=
  ((ds.take (i+1)).map (fun d => d * (14/10))).sum

lemma osrmCumMin_cons_zero (leg : RouteLeg) (legs : List RouteLeg) :
    osrmCumMin (leg :: legs) 0 = jsRoundQ (leg.duration / 60) := by
  simp [osrmCumMin]

lemma osrmCumMin_cons_succ (leg : RouteLeg) (legs : List RouteLeg) (j : ℕ) :
    osrmCumMin (leg :: legs) (j+1) = jsRoundQ (leg.duration / 60) + osrmCumMin legs j := by
  simp [osrmCumMin]

lemma osrmCumDist_cons_zero (leg : RouteLeg) (legs : List RouteLeg) :
    osrmCumDist (leg :: legs) 0 = leg.distance := by
  simp [osrmCumDist]

lemma osrmCumDist_cons_succ (leg : RouteLeg) (legs : List RouteLeg) (j : ℕ) :
    osrmCumDist (leg :: legs) (j+1) = leg.distance + osrmCumDist legs j := by
  simp [osrmCumDist]

lemma fbCumMin_cons_zero (d : ℝ) (ds : List ℝ) :
    fbCumMin (d :: ds) 0 = jsRoundR (d / 1000 / 25 * 60) := by
  simp [fbCumMin]

lemma fbCumMin_cons_succ (d : ℝ) (ds : List ℝ) (j : ℕ) :
    fbCumMin (d :: ds) (j+1) = jsRoundR (d / 1000 / 25 * 60) + fbCumMin ds j := by
  simp [fbCumMin]

lemma fbCumDist_cons_zero (d : ℝ) (ds : List ℝ) :
    fbCumDist (d :: ds) 0 = d * (14/10) := by
  simp [fbCumDist]

lemma fbCumDist_cons_succ (d : ℝ) (ds : List ℝ) (j : ℕ) :
    fbCumDist (d :: ds) (j+1) = d * (14/10) + fbCumDist ds j := by
  simp [fbCumDist]

lemma osrmStopEtas_get (hour : ℕ) (tgt : Option ℤ) :
    ∀ (pairs : List (EtaStop × RouteLeg)) (idx : ℕ) (cm : ℤ) (cd : ℚ) (sa : ℤ)
      (te : Option StopETA) (i : ℕ), i < pairs.length →
      ((osrmStopEtas hour tgt pairs idx cm cd sa te).1[i]?).map
          (fun e => (e.etaMinutes, e.distance))
        = some ((applyTrafficAdjustment hour
                  (cm + osrmCumMin (pairs.map Prod.snd) i)).adjusted,
                jsRoundQ (cd + osrmCumDist (pairs.map Prod.snd) i)) := by
  intro pairs
  induction pairs with
  | nil =>
    intro idx cm cd sa te i hi
    exact absurd hi (by simp)
  | cons p rest ih =>
    intro idx cm cd sa te i hi
    obtain ⟨stop, leg⟩ := p
    cases i with
    | zero =>
      simp only [osrmStopEtas, List.map_cons, List.getElem?_cons_zero, Option.map_some]
      rw [osrmCumMin_cons_zero, osrmCumDist_cons_zero]
      rfl
    | succ j =>
      have hj : j < rest.length := by simpa using hi
      simp only [osrmStopEtas, List.map_cons, List.getElem?_cons_succ]
      rw [osrmCumMin_cons_succ, osrmCumDist_cons_succ]
      rw [show cm + (jsRoundQ (leg.duration / 60) + osrmCumMin (rest.map Prod.snd) j)
          = (cm + jsRoundQ (leg.duration / 60)) + osrmCumMin (rest.map Prod.snd) j by ring]
      rw [show cd + (leg.distance + osrmCumDist (rest.map Prod.snd) j)
          = (cd + leg.distance) + osrmCumDist (rest.map Prod.snd) j by ring]
      exact ih (idx + 1) (cm + jsRoundQ (leg.duration / 60)) (cd + leg.distance) _ _ j hj

lemma fallbackStopEtas_get (hour : ℕ) (tgt : Option ℤ) :
    ∀ (stops : List EtaStop) (idx : ℕ) (pl pn : ℝ) (cm : ℤ) (cd : ℝ) (sa : ℤ)
      (te : Option StopETA) (i : ℕ), i < stops.length →
      ((fallbackStopEtas hour tgt stops idx pl pn cm cd sa te).1[i]?).map
          (fun e => (e.etaMinutes, e.distance))
        = some ((applyTrafficAdjustment hour
                  (cm + fbCumMin (legDistList pl pn stops) i)).adjusted,
                jsRoundR (cd + fbCumDist (legDistList pl pn stops) i)) := by
  intro stops
  induction stops with
  | nil =>
    intro idx pl pn cm cd sa te i hi
    exact absurd hi (by simp)
  | cons s rest ih =>
    intro idx pl pn cm cd sa te i hi
    cases i with
    | zero =>
      simp only [fallbackStopEtas, legDistList, List.getElem?_cons_zero, Option.map_some]
      rw [fbCumMin_cons_zero, fbCumDist_cons_zero]
      rfl
    | succ j =>
      have hj : j < rest.length := by simpa using hi
      simp only [fallbackStopEtas, legDistList, List.getElem?_cons_succ]
      rw [fbCumMin_cons_succ, fbCumDist_cons_succ]
      rw [show cm + (jsRoundR (calculateDistance pl pn s.lat s.lng / 1000 / 25 * 60)
              + fbCumMin (legDistList s.lat s.lng rest) j)
          = (cm + jsRoundR (calculateDistance pl pn s.lat s.lng / 1000 / 25 * 60))
              + fbCumMin (legDistList s.lat s.lng rest) j by ring]
      rw [show cd + (calculateDistance pl pn s.lat s.lng * (14/10)
              + fbCumDist (legDistList s.lat s.lng rest) j)
          = (cd + calculateDistance pl pn s.lat s.lng * (14/10))
              + fbCumDist (legDistList s.lat s.lng rest) j by ring]
      exact ih (idx + 1) s.lat s.lng
        (cm + jsRoundR (calculateDistance pl pn s.lat s.lng / 1000 / 25 * 60))
        (cd + calculateDistance pl pn s.lat s.lng * (14/10)) _ _ j hj

lemma stopEta_pair_split {l : List StopETA} {i : ℕ} {A B : ℤ}
    (h : (l[i]?).map (fun e => (e.etaMinutes, e.distance)) = some (A, B)) :
    (l[i]?).map StopETA.etaMinutes = some A ∧ (l[i]?).map StopETA.distance = some B := by
  cases hx : l[i]? with
  | none => rw [hx] at h; simp at h
  | some e =>
    rw [hx] at h
    rw [Option.map_some'] at h
    rw [Option.some.injEq, Prod.mk.injEq] at h
    rw [Option.map_some', Option.map_some', Option.some.injEq, Option.some.injEq]
    exact ⟨h.1, h.2⟩

/-- C4: for every non-empty stop list, each stop's `etaMinutes` is the
traffic adjustment applied to the *cumulative* base duration from the
vehicle through that stop (not the stop's leg alone) in both paths; the
fallback path is taken exactly when the provider is unavailable or its
leg count differs from the stop count, computes legs by haversine
distance at 25 km/h, and accumulates distances inflated by 1.4. -/
theorem C4_cumulative_eta (routeResult : Option MultiStopRouteResult)
    (hour : ℕ) (busLat busLon : ℝ) (stops : List EtaStop) (tgt : Option ℤ)
    (hne : stops ≠ []) :
    ((calculateMultiStopEta routeResult hour busLat busLon stops tgt).1.source = .fallback ↔
      (routeResult = none ∨ ∃ r, routeResult = some r ∧ r.legs.length ≠ stops.length)) ∧
    (∀ r, routeResult = some r → r.legs.length = stops.length →
      ∀ i, i < stops.length →
        ((calculateMultiStopEta routeResult hour busLat busLon stops tgt).1.stops[i]?).map
            StopETA.etaMinutes
          = some (applyTrafficAdjustment hour (osrmCumMin r.legs i)).adjusted) ∧
    ((routeResult = none ∨ ∃ r, routeResult = some r ∧ r.legs.length ≠ stops.length) →
      ∀ i, i < stops.length →
        ((calculateMultiStopEta routeResult hour busLat busLon stops tgt).1.stops[i]?).map
            StopETA.etaMinutes
          = some (applyTrafficAdjustment hour
              (fbCumMin (legDistList busLat busLon stops) i)).adjusted ∧
        ((calculateMultiStopEta routeResult hour busLat busLon stops tgt).1.stops[i]?).map
            StopETA.distance
          = some (jsRoundR (fbCumDist (legDistList busLat busLon stops) i))) := by
  have hlen0 : ¬(stops.length = 0) := by
    simpa [List.length_eq_zero] using hne
  have hfallback : ∀ i, i < stops.length →
      ((multiStopFallback hour busLat busLon stops tgt).stops[i]?).map StopETA.etaMinutes
        = some (applyTrafficAdjustment hour
            (fbCumMin (legDistList busLat busLon stops) i)).adjusted ∧
      ((multiStopFallback hour busLat busLon stops tgt).stops[i]?).map StopETA.distance
        = some (jsRoundR (fbCumDist (legDistList busLat busLon stops) i)) := by
    intro i hi
    have h := fallbackStopEtas_get hour tgt stops 0 busLat busLon 0 0 0 none i hi
    rw [zero_add] at h
    rw [show ((0:ℝ) + fbCumDist (legDistList busLat busLon stops) i)
        = fbCumDist (legDistList busLat busLon stops) i by ring] at h
    exact stopEta_pair_split h
  rcases routeResult with _ | r
  · rw [calculateMultiStopEta_none hour busLat busLon stops tgt hlen0]
    refine ⟨⟨fun _ => Or.inl rfl, fun _ => rfl⟩, ?_, ?_⟩
    · intro r hr
      exact absurd hr (by simp)
    · intro _ i hi
      exact hfallback i hi
  · by_cases hleg : r.legs.length = stops.length
    · rw [calculateMultiStopEta_routed r hour busLat busLon stops tgt hlen0 hleg]
      refine ⟨?_, ?_, ?_⟩
      · simp only [iff_iff_implies_and_implies]
        constructor
        · intro hsrc
          exact absurd hsrc (by simp)
        · rintro (hnone | ⟨r', hr', hne'⟩)
          · exact absurd hnone (by simp)
          · rw [Option.some.injEq] at hr'
            subst hr'
            exact absurd hleg hne'
      · intro r' hr' _ i hi
        rw [Option.some.injEq] at hr'
        subst hr'
        have hi' : i < (stops.zip r.legs).length := by
          rw [List.length_zip, hleg, Nat.min_self]
          exact hi
        have h := osrmStopEtas_get hour tgt (stops.zip r.legs) 0 0 0 0 none i hi'
        rw [zero_add] at h
        rw [show ((0:ℚ) + osrmCumDist ((stops.zip r.legs).map Prod.snd) i)
            = osrmCumDist ((stops.zip r.legs).map Prod.snd) i by ring] at h
        rw [List.map_snd_zip _ _ (le_of_eq hleg)] at h
        exact (stopEta_pair_split h).1
      · rintro (hnone | ⟨r', hr', hne'⟩)
        · exact absurd hnone (by simp)
        · rw [Option.some.injEq] at hr'
          subst hr'
          exact absurd hleg hne'
    · rw [calculateMultiStopEta_mismatch r hour busLat busLon stops tgt hlen0 hleg]
      refine ⟨⟨fun _ => Or.inr ⟨r, rfl, hleg⟩, fun _ => rfl⟩, ?_, ?_⟩
      · intro r' hr' hleg'
        rw [Option.some.injEq] at hr'
        subst hr'
        exact absurd hleg' hleg
      · intro _ i hi
        exact hfallback i hi

/-- Witness for C4: a single stop at the vehicle's own position with the
provider unavailable (fallback path). -/
theorem C4_cumulative_eta_witness :
    ((calculateMultiStopEta none 12 0 0 [⟨1, "A", 0, 0⟩] none).1.source = .fallback ↔
      ((none : Option MultiStopRouteResult) = none ∨
        ∃ r, (none : Option MultiStopRouteResult) = some r ∧
          r.legs.length ≠ ([⟨1, "A", 0, 0⟩] : List EtaStop).length)) ∧
    (∀ r, (none : Option MultiStopRouteResult) = some r →
      r.legs.length = ([⟨1, "A", 0, 0⟩] : List EtaStop).length →
      ∀ i, i < ([⟨1, "A", 0, 0⟩] : List EtaStop).length →
        ((calculateMultiStopEta none 12 0 0 [⟨1, "A", 0, 0⟩] none).1.stops[i]?).map
            StopETA.etaMinutes
          = some (applyTrafficAdjustment 12 (osrmCumMin r.legs i)).adjusted) ∧
    (((none : Option MultiStopRouteResult) = none ∨
        ∃ r, (none : Option MultiStopRouteResult) = some r ∧
          r.legs.length ≠ ([⟨1, "A", 0, 0⟩] : List EtaStop).length) →
      ∀ i, i < ([⟨1, "A", 0, 0⟩] : List EtaStop).length →
        ((calculateMultiStopEta none 12 0 0 [⟨1, "A", 0, 0⟩] none).1.stops[i]?).map
            StopETA.etaMinutes
          = some (applyTrafficAdjustment 12
              (fbCumMin (legDistList 0 0 [⟨1, "A", 0, 0⟩]) i)).adjusted ∧
        ((calculateMultiStopEta none 12 0 0 [⟨1, "A", 0, 0⟩] none).1.stops[i]?).map
            StopETA.distance
          = some (jsRoundR (fbCumDist (legDistList 0 0 [⟨1, "A", 0, 0⟩]) i))) :=
  C4_cumulative_eta none 12 0 0 [⟨1, "A", 0, 0⟩] none (by simp)

/-! ## Stop-progress classification lemmas -/

lemma latestVisit_foldl_spec :
    ∀ (l : List VisitRecord) (a : VisitRecord),
      ∃ lv, l.foldl (fun acc v =>
          match acc with
          | none => some v
          | some x => if v.visitedAt > x.visitedAt then some v else some x) (some a) = some lv ∧
        (lv = a ∨ lv ∈ l) ∧ a.visitedAt ≤ lv.visitedAt ∧
        ∀ w ∈ l, w.visitedAt ≤ lv.visitedAt := by
  intro l
  induction l with
  | nil =>
    intro a
    exact ⟨a, rfl, Or.inl rfl, le_refl _, by intro w hw; exact absurd hw (List.not_mem_nil w)⟩
  | cons v rest ih =>
    intro a
    rw [List.foldl_cons]
    by_cases hva : v.visitedAt > a.visitedAt
    · obtain ⟨lv, h1, h2, h3, h4⟩ := ih v
      rw [show (match some a with
          | none => some v
          | some x => if v.visitedAt > x.visitedAt then some v else some x) = some v by
        simp [hva]]
      refine ⟨lv, h1, ?_, by linarith, ?_⟩
      · rcases h2 with h2 | h2
        · exact Or.inr (h2 ▸ List.mem_cons_self v rest)
        · exact Or.inr (List.mem_cons_of_mem v h2)
      · intro w hw
        rcases List.mem_cons.mp hw with hw | hw
        · subst hw; exact h3
        · exact h4 w hw
    · obtain ⟨lv, h1, h2, h3, h4⟩ := ih a
      rw [show (match some a with
          | none => some v
          | some x => if v.visitedAt > x.visitedAt then some v else some x) = some a by
        simp [hva]]
      refine ⟨lv, h1, ?_, h3, ?_⟩
      · rcases h2 with h2 | h2
        · exact Or.inl h2
        · exact Or.inr (List.mem_cons_of_mem v h2)
      · intro w hw
        rcases List.mem_cons.mp hw with hw | hw
        · subst hw
          push_neg at hva
          linarith
        · exact h4 w hw

lemma latestVisit_spec (visits : List VisitRecord) (hne : visits ≠ []) :
    ∃ lv, latestVisit? visits = some lv ∧ lv ∈ visits ∧
      ∀ w ∈ visits, w.visitedAt ≤ lv.visitedAt := by
  match visits, hne with
  | v :: rest, _ =>
    unfold latestVisit?
    rw [List.foldl_cons]
    obtain ⟨lv, h1, h2, h3, h4⟩ := latestVisit_foldl_spec rest v
    refine ⟨lv, h1, ?_, ?_⟩
    · rcases h2 with h2 | h2
      · exact h2 ▸ List.mem_cons_self v rest
      · exact List.mem_cons_of_mem v h2
    · intro w hw
      rcases List.mem_cons.mp hw with hw | hw
      · subst hw; exact h3
      · exact h4 w hw

lemma find_visit_unique :
    ∀ (visits : List VisitRecord) (sid : ℤ) (v : VisitRecord),
      (visits.map VisitRecord.stopId).Nodup → v ∈ visits → v.stopId = sid →
      visits.find? (fun w => w.stopId == sid) = some v := by
  intro visits
  induction visits with
  | nil => intro sid v _ hv; exact absurd hv (List.not_mem_nil v)
  | cons h rest ih =>
    intro sid v hnd hv hsid
    rw [List.map_cons, List.nodup_cons] at hnd
    by_cases hh : h.stopId = sid
    · have hveq : v = h := by
        rcases List.mem_cons.mp hv with hv' | hv'
        · exact hv'
        · exfalso
          apply hnd.1
          rw [show h.stopId = v.stopId by rw [hh, hsid]]
          exact List.mem_map_of_mem VisitRecord.stopId hv'
      rw [List.find?_cons_of_pos _ (by simp [hh])]
      rw [hveq]
    · have hvm : v ∈ rest := by
        rcases List.mem_cons.mp hv with hv' | hv'
        · exact absurd (hv' ▸ hsid) hh
        · exact hv'
      rw [List.find?_cons_of_neg _ (by simp [hh])]
      exact ih sid v hnd.2 hvm hsid

lemma findIdx_of_getElem :
    ∀ (stops : List SPStop) (i i0 : ℕ) (s : SPStop),
      (stops.map SPStop.id).Nodup → stops[i]? = some s →
      stops.findIdx? (fun st => st.id == s.id) i0 = some (i0 + i) := by
  intro stops
  induction stops with
  | nil => intro i i0 s _ hs; simp at hs
  | cons st rest ih =>
    intro i i0 s hnd hs
    rw [List.map_cons, List.nodup_cons] at hnd
    cases i with
    | zero =>
      rw [List.getElem?_cons_zero, Option.some.injEq] at hs
      subst hs
      rw [List.findIdx?_cons]
      simp
    | succ j =>
      rw [List.getElem?_cons_succ] at hs
      have hsm : s ∈ rest := List.getElem?_mem hs
      have hne : ¬(st.id = s.id) := by
        intro he
        apply hnd.1
        rw [he]
        exact List.mem_map_of_mem SPStop.id hsm
      rw [List.findIdx?_cons]
      rw [if_neg (by simp [hne])]
      rw [ih j (i0 + 1) s hnd.2 hs]
      congr 1
      omega

lemma currentStop_of_latest (stops : List SPStop) (visits : List VisitRecord)
    (now : ℤ) (lv : VisitRecord) (i : ℕ) (s : SPStop)
    (hids : (stops.map SPStop.id).Nodup)
    (hlv : latestVisit? visits = some lv)
    (hs : stops[i]? = some s)
    (hsid : lv.stopId = s.id) :
    currentStopOfVisits stops visits now
      = if ((i:ℤ) < (stops.length:ℤ) - 1 ∧ now - lv.visitedAt < 2 * 60 * 1000)
        then some lv.stopId else none := by
  unfold currentStopOfVisits
  rw [hlv]
  dsimp only
  have hfi : stops.findIdx? (fun st => st.id == lv.stopId) = some i := by
    rw [show (fun st : SPStop => st.id == lv.stopId) = (fun st : SPStop => st.id == s.id) by
      funext st; rw [hsid]]
    have := findIdx_of_getElem stops i 0 s hids hs
    simpa using this
  rw [hfi]
  dsimp only [Option.elim]
  by_cases h1 : (i:ℤ) < (stops.length:ℤ) - 1
  · rw [if_pos h1]
    by_cases h2 : now - lv.visitedAt < 2 * 60 * 1000
    · rw [if_pos h2, if_pos ⟨h1, h2⟩]
    · rw [if_neg h2, if_neg (by tauto)]
  · rw [if_neg h1, if_neg (by tauto)]

lemma currentStop_none_or_latest (stops : List SPStop) (visits : List VisitRecord)
    (now : ℤ) (lv : VisitRecord)
    (hlv : latestVisit? visits = some lv) :
    currentStopOfVisits stops visits now = none ∨
      currentStopOfVisits stops visits now = some lv.stopId := by
  unfold currentStopOfVisits
  rw [hlv]
  dsimp only
  by_cases h1 : ((stops.findIdx? (fun st => st.id == lv.stopId)).elim (-1)
      (fun i => (i : ℤ))) < (stops.length : ℤ) - 1
  · rw [if_pos h1]
    by_cases h2 : now - lv.visitedAt < 2 * 60 * 1000
    · rw [if_pos h2]; exact Or.inr rfl
    · rw [if_neg h2]; exact Or.inl rfl
  · rw [if_neg h1]; exact Or.inl rfl

lemma visited_status_eq (stops : List SPStop) (visits : List VisitRecord)
    (now : ℤ) (i : ℕ) (s : SPStop) (v : VisitRecord)
    (hids : (stops.map SPStop.id).Nodup)
    (hvuniq : (visits.map VisitRecord.stopId).Nodup)
    (htimes : (visits.map VisitRecord.visitedAt).Nodup)
    (hs : stops[i]? = some s) (hv : v ∈ visits) (hvsid : v.stopId = s.id) :
    (if currentStopOfVisits stops visits now == some s.id
     then StopState.current else StopState.passed)
      = (if (∀ w ∈ visits, w ≠ v → w.visitedAt < v.visitedAt)
            ∧ i + 1 < stops.length ∧ now - v.visitedAt < 2 * 60 * 1000
         then StopState.current else StopState.passed) := by
  have hne : visits ≠ [] := fun h => absurd (h ▸ hv) (List.not_mem_nil v)
  obtain ⟨lv, hlv, hlvmem, hlvmax⟩ := latestVisit_spec visits hne
  have hcast : ((i:ℤ) < (stops.length:ℤ) - 1) ↔ (i + 1 < stops.length) := by
    omega
  by_cases hveq : v = lv
  · subst hveq
    have hcur := currentStop_of_latest stops visits now v i s hids hlv hs hvsid
    rw [hcur]
    have hmax : ∀ w ∈ visits, w ≠ v → w.visitedAt < v.visitedAt := by
      intro w hw hwne
      have hneq : w.visitedAt ≠ v.visitedAt := by
        intro he
        exact hwne (List.inj_on_of_nodup_map htimes hw hv he)
      exact lt_of_le_of_ne (hlvmax w hw) hneq
    by_cases hcond : ((i:ℤ) < (stops.length:ℤ) - 1 ∧ now - v.visitedAt < 2 * 60 * 1000)
    · rw [if_pos hcond]
      have hbeq : (some v.stopId == some s.id) = true := by simp [hvsid]
      have hspec : (∀ w ∈ visits, w ≠ v → w.visitedAt < v.visitedAt)
          ∧ i + 1 < stops.length ∧ now - v.visitedAt < 2 * 60 * 1000 :=
        ⟨hmax, hcast.mp hcond.1, hcond.2⟩
      rw [if_pos hspec]
      simp [hbeq]
    · rw [if_neg hcond]
      have hspec : ¬((∀ w ∈ visits, w ≠ v → w.visitedAt < v.visitedAt)
          ∧ i + 1 < stops.length ∧ now - v.visitedAt < 2 * 60 * 1000) := by
        rintro ⟨_, h2, h3⟩
        exact hcond ⟨hcast.mpr h2, h3⟩
      rw [if_neg hspec]
      simp
  · have hmaxne : ¬(∀ w ∈ visits, w ≠ v → w.visitedAt < v.visitedAt) := by
      intro hall
      have hlt := hall lv hlvmem (fun he => hveq he.symm)
      have hle := hlvmax v hv
      linarith
    have hspec : ¬((∀ w ∈ visits, w ≠ v → w.visitedAt < v.visitedAt)
        ∧ i + 1 < stops.length ∧ now - v.visitedAt < 2 * 60 * 1000) :=
      fun hc => hmaxne hc.1
    rw [if_neg hspec]
    rcases currentStop_none_or_latest stops visits now lv hlv with hcur | hcur
    · rw [hcur]
      simp
    · rw [hcur]
      have hne2 : ¬(lv.stopId = s.id) := by
        intro he
        exact hveq (List.inj_on_of_nodup_map hvuniq hv hlvmem (hvsid.trans he.symm))
      simp [hne2]

/-- C7: in the stop-progress view, the most recently visited stop (the
strictly latest `visitedAt`) is `"current"` exactly when less than
2 minutes have elapsed since its visit and it is not the last stop of the
route; every other visited stop is `"passed"` (carrying its `visitedAt`),
and every unvisited stop is `"upcoming"` with an ETA annotation present
exactly when a current position is known. -/
theorem C7_stop_classification
    (stops : List SPStop) (visits : List VisitRecord)
    (busPosition : Option BusPosition) (now : ℤ) (etaFn : BusPosition → SPStop → ℤ)
    (hids : (stops.map SPStop.id).Nodup)
    (hvuniq : (visits.map VisitRecord.stopId).Nodup)
    (htimes : (visits.map VisitRecord.visitedAt).Nodup) :
    (getStopProgress stops visits busPosition now etaFn).length = stops.length ∧
    ∀ (i : ℕ) (s : SPStop), stops[i]? = some s →
      (∀ v ∈ visits, v.stopId = s.id →
        (getStopProgress stops visits busPosition now etaFn)[i]?
          = some { stopId := s.id
                   status := if (∀ w ∈ visits, w ≠ v → w.visitedAt < v.visitedAt)
                                ∧ i + 1 < stops.length
                                ∧ now - v.visitedAt < 2 * 60 * 1000
                             then StopState.current else StopState.passed
                   passedAt := some v.visitedAt
                   etaMinutes := none }) ∧
      ((∀ v ∈ visits, v.stopId ≠ s.id) →
        (getStopProgress stops visits busPosition now etaFn)[i]?
          = some { stopId := s.id
                   status := StopState.upcoming
                   passedAt := none
                   etaMinutes := busPosition.map (fun p => etaFn p s) }) := by
  constructor
  · simp [getStopProgress]
  intro i s hs
  constructor
  · intro v hv hvsid
    have hfind := find_visit_unique visits s.id v hvuniq hv hvsid
    unfold getStopProgress
    dsimp only
    rw [List.getElem?_map, hs, Option.map_some']
    rw [hfind]
    dsimp only
    rw [visited_status_eq stops visits now i s v hids hvuniq htimes hs hv hvsid]
  · intro hno
    have hfind : visits.find? (fun w => w.stopId == s.id) = none :=
      List.find?_eq_none.mpr (by intro w hw; simp [hno w hw])
    unfold getStopProgress
    dsimp only
    rw [List.getElem?_map, hs, Option.map_some']
    rw [hfind]

/-- Witness for C7: two stops, the first visited at time 0 and queried at
time 0 (inside the 2-minute window), no known position. -/
theorem C7_stop_classification_witness :
    (getStopProgress [⟨1, 0, 0, 1⟩, ⟨2, 0, 0, 2⟩] [⟨7, 1, 3, 0, 0⟩] none 0
        (fun _ _ => (0:ℤ))).length = ([⟨1, 0, 0, 1⟩, ⟨2, 0, 0, 2⟩] : List SPStop).length ∧
    ∀ (i : ℕ) (s : SPStop), ([⟨1, 0, 0, 1⟩, ⟨2, 0, 0, 2⟩] : List SPStop)[i]? = some s →
      (∀ v ∈ ([⟨7, 1, 3, 0, 0⟩] : List VisitRecord), v.stopId = s.id →
        (getStopProgress [⟨1, 0, 0, 1⟩, ⟨2, 0, 0, 2⟩] [⟨7, 1, 3, 0, 0⟩] none 0
            (fun _ _ => (0:ℤ)))[i]?
          = some { stopId := s.id
                   status := if (∀ w ∈ ([⟨7, 1, 3, 0, 0⟩] : List VisitRecord),
                                    w ≠ v → w.visitedAt < v.visitedAt)
                                ∧ i + 1 < ([⟨1, 0, 0, 1⟩, ⟨2, 0, 0, 2⟩] : List SPStop).length
                                ∧ 0 - v.visitedAt < 2 * 60 * 1000
                             then StopState.current else StopState.passed
                   passedAt := some v.visitedAt
                   etaMinutes := none }) ∧
      ((∀ v ∈ ([⟨7, 1, 3, 0, 0⟩] : List VisitRecord), v.stopId ≠ s.id) →
        (getStopProgress [⟨1, 0, 0, 1⟩, ⟨2, 0, 0, 2⟩] [⟨7, 1, 3, 0, 0⟩] none 0
            (fun _ _ => (0:ℤ)))[i]?
          = some { stopId := s.id
                   status := StopState.upcoming
                   passedAt := none
                   etaMinutes := (none : Option BusPosition).map
                     (fun p => (fun _ _ => (0:ℤ)) p s) }) :=
  C7_stop_classification [⟨1, 0, 0, 1⟩, ⟨2, 0, 0, 2⟩] [⟨7, 1, 3, 0, 0⟩] none 0
    (fun _ _ => (0:ℤ)) (by simp) (by simp) (by simp)
